import Mathlib

/-!
Shallow embedding of the devin-bakeoff-metrics code-quality aggregator.

A directory is modelled as the list of file paths produced by os.walk.
External tools (flake8, pylint, radon, bandit, ESLint, JSHint, npm audit,
Checkstyle, PMD, SpotBugs) are modelled as oracle functions supplied to each
analyzer method: each oracle value represents the already-captured console
output of one subprocess invocation, post the regex/JSON parsing that the
Python code applies to it; an `Except.error m` (or `exn m` constructor)
value represents the call raising an unexpected Python exception with
message `str(e) = m` (for example FileNotFoundError when the tool binary is
not installed).  Scores are rationals (Python floats carry exact small
decimals in every formula used here).
-/

set_option maxHeartbeats 1000000

namespace DevinBakeoff

/-- Result dict of one analyzer metric method: a score and issue strings. -/
structure MetricResult where
  score : ℚ
  issues : List String
deriving DecidableEq

/-! ## constants.py -/

def PYTHON_EXTENSIONS : List String := [".py"]

def JAVASCRIPT_EXTENSIONS : List String := [".js", ".jsx"]

def TYPESCRIPT_EXTENSIONS : List String := [".ts", ".tsx"]

def JAVA_EXTENSIONS : List String := [".java"]

def CPP_EXTENSIONS : List String := [".cpp", ".cc", ".cxx", ".c", ".h", ".hpp"]

def GO_EXTENSIONS : List String := [".go"]

def RUBY_EXTENSIONS : List String := [".rb"]

def PHP_EXTENSIONS : List String := [".php"]

def CSHARP_EXTENSIONS : List String := [".cs"]

def ALL_EXTENSIONS : List String :=
  PYTHON_EXTENSIONS ++ JAVASCRIPT_EXTENSIONS ++ TYPESCRIPT_EXTENSIONS ++ JAVA_EXTENSIONS ++
  CPP_EXTENSIONS ++ GO_EXTENSIONS ++ RUBY_EXTENSIONS ++ PHP_EXTENSIONS ++ CSHARP_EXTENSIONS

/-- The LANGUAGE_BY_EXTENSION dict (its per-language comprehensions have
disjoint keys, so the merged dict is this chain of membership tests). -/
def LANGUAGE_BY_EXTENSION (e : String) : Option String :=
  if PYTHON_EXTENSIONS.contains e then some "Python"
  else if JAVASCRIPT_EXTENSIONS.contains e then some "JavaScript"
  else if TYPESCRIPT_EXTENSIONS.contains e then some "TypeScript"
  else if JAVA_EXTENSIONS.contains e then some "Java"
  else if CPP_EXTENSIONS.contains e then some "C/C++"
  else if GO_EXTENSIONS.contains e then some "Go"
  else if RUBY_EXTENSIONS.contains e then some "Ruby"
  else if PHP_EXTENSIONS.contains e then some "PHP"
  else if CSHARP_EXTENSIONS.contains e then some "C#"
  else none

/-! ## Helpers shared by the analyzers -/

/-- Whether the second character list is an initial segment of the first. -/
def charListBeginsWith : List Char → List Char → Bool
  | _, [] => true
  | [], _ :: _ => false
  | c :: cs, d :: ds => c = d && charListBeginsWith cs ds

/-- Whether the pattern occurs as a contiguous sublist. -/
def charListHasSub : List Char → List Char → Bool
  | [], pat => pat.isEmpty
  | c :: cs, pat => charListBeginsWith (c :: cs) pat || charListHasSub cs pat

/-- Python `s.startswith(pre)`. -/
def strStartsWith (s pre : String) : Bool := charListBeginsWith s.toList pre.toList

/-- Python `s.endswith(suf)`. -/
def strEndsWith (s suf : String) : Bool :=
  charListBeginsWith s.toList.reverse suf.toList.reverse

/-- Python substring test `pat in s`. -/
def strContains (s pat : String) : Bool := charListHasSub s.toList pat.toList

/-- Python `s.strip()` (whitespace mode). -/
def pyStrip (s : String) : String :=
  String.mk (((s.toList.dropWhile Char.isWhitespace).reverse.dropWhile Char.isWhitespace).reverse)

/-- The clamp `max(0, 10 - min(10, x))` used by the issue-count formulas. -/
def clampScore (x : ℚ) : ℚ := max 0 (10 - min 10 x)

/-- The file enumeration each analyzer performs: walk the directory and keep
files ending in one of the analyzer extensions (`file.endswith(ext)`). -/
def filesMatching (dir : List String) (exts : List String) : List String :=
  dir.filter (fun f => exts.any (fun e => strEndsWith f e))

/-- Index of the last occurrence of a character. -/
def lastIdxOf (cs : List Char) (c : Char) : Option Nat :=
  match cs.reverse.findIdx? (· = c) with
  | none => none
  | some i => some (cs.length - 1 - i)

/-- The extension component of os.path.splitext: the suffix starting at the
last dot of the basename, or "" when the basename has no dot after its
(possibly empty) run of leading dots. -/
def splitextExt (p : String) : String :=
  let cs := p.toList
  let start : Nat := match lastIdxOf cs '/' with | none => 0 | some i => i + 1
  match lastIdxOf cs '.' with
  | none => ""
  | some d =>
    if start ≤ d then
      if ((cs.drop start).take (d - start)).any (· ≠ '.') then
        String.mk (cs.drop d)
      else ""
    else ""

/-! ## PythonAnalyzer (src/analyzers/python_analyzer.py)

flake8/radon/bandit calls merge the success output and the
CalledProcessError output (`output = e.output`), so one oracle per tool
returns `Except.ok` with `output.strip().split(chr 10)` as a line list, or
`Except.error m` for an exception that escapes to the method-level handler. -/

namespace PythonAnalyzer

/-- The lines of one flake8 output that the `if lines and lines[0]` guard
lets through (each is appended as an issue and counted). -/
def flakeIssues (lines : List String) : List String :=
  match lines with
  | [] => []
  | l0 :: _ => if l0 = "" then [] else lines

/-- flake8 loop of analyze_style: accumulate the issue lines and their count;
an escaping exception aborts with the issues collected so far. -/
def styleLoop (flake8 : String → Except String (List String)) :
    List String → Nat → List String → Except (String × List String) (Nat × List String)
  | [], total, issues => .ok (total, issues)
  | f :: rest, total, issues =>
    match flake8 f with
    | .error m => .error (m, issues)
    | .ok lines =>
      styleLoop flake8 rest (total + (flakeIssues lines).length) (issues ++ flakeIssues lines)

/-- PythonAnalyzer.analyze_style. -/
def analyze_style (dir : List String) (flake8 : String → Except String (List String)) :
    MetricResult :=
  let pythonFiles := filesMatching dir PYTHON_EXTENSIONS
  if pythonFiles = [] then ⟨10, ["No Python files found"]⟩
  else
    match styleLoop flake8 pythonFiles 0 [] with
    | .ok (total, issues) =>
      ⟨clampScore ((total : ℚ) / (pythonFiles.length : ℚ)), issues⟩
    | .error (m, issues) => ⟨0, issues ++ ["Error running flake8: " ++ m]⟩

/-- A pylint invocation's captured output: the rating matched by the regex
`Your code has been rated at ([-\d.]+)/10` (already converted by float()),
and the stripped output split into lines. -/
structure PylintOut where
  rating : Option ℚ
  lines : List String
deriving DecidableEq

/-- pylint loop of analyze_quality: sum the per-file ratings floored at 0 and
collect the issue lines (lines containing a colon and not starting with
"Your code"). -/
def qualityLoop (pylint : String → Except String PylintOut) :
    List String → ℚ → List String → Except (String × List String) (ℚ × List String)
  | [], total, issues => .ok (total, issues)
  | f :: rest, total, issues =>
    match pylint f with
    | .error m => .error (m, issues)
    | .ok out =>
      let fileScore : ℚ :=
        match out.rating with
        | none => 0
        | some r => if r < 0 then 0 else r
      let newIssues := out.lines.filter
        (fun l => strContains l ":" && !(strStartsWith l "Your code"))
      qualityLoop pylint rest (total + fileScore) (issues ++ newIssues)

/-- PythonAnalyzer.analyze_quality. -/
def analyze_quality (dir : List String) (pylint : String → Except String PylintOut) :
    MetricResult :=
  let pythonFiles := filesMatching dir PYTHON_EXTENSIONS
  if pythonFiles = [] then ⟨10, ["No Python files found"]⟩
  else
    match qualityLoop pylint pythonFiles 0 [] with
    | .ok (total, issues) => ⟨total / (pythonFiles.length : ℚ), issues⟩
    | .error (m, issues) => ⟨0, issues ++ ["Error running pylint: " ++ m]⟩

/-- One line of radon cc output together with the complexity number matched
by the regex `[A-F] \((\d+)\)` on that line, if any. -/
structure RadonLine where
  text : String
  complexity : Option Nat
deriving DecidableEq

/-- The radon output lines the `if lines and lines[0]` guard lets through. -/
def radonSel (rlines : List RadonLine) : List RadonLine :=
  match rlines with
  | [] => []
  | r0 :: _ => if r0.text = "" then [] else rlines

/-- The complexity values matched on the guarded lines of one radon output. -/
def radonVals (rlines : List RadonLine) : List Nat :=
  (radonSel rlines).filterMap (·.complexity)

/-- radon loop of analyze_complexity: append every line, sum the matched
complexities and count the matching lines. -/
def complexityLoop (radon : String → Except String (List RadonLine)) :
    List String → Nat → Nat → List String →
    Except (String × List String) (Nat × Nat × List String)
  | [], csum, cnt, issues => .ok (csum, cnt, issues)
  | f :: rest, csum, cnt, issues =>
    match radon f with
    | .error m => .error (m, issues)
    | .ok rlines =>
      complexityLoop radon rest (csum + (radonVals rlines).sum)
        (cnt + (radonVals rlines).length)
        (issues ++ (radonSel rlines).map (·.text))

/-- PythonAnalyzer.analyze_complexity. -/
def analyze_complexity (dir : List String) (radon : String → Except String (List RadonLine)) :
    MetricResult :=
  let pythonFiles := filesMatching dir PYTHON_EXTENSIONS
  if pythonFiles = [] then ⟨10, ["No Python files found"]⟩
  else
    match complexityLoop radon pythonFiles 0 0 [] with
    | .ok (csum, cnt, issues) =>
      let avg : ℚ := if cnt ≠ 0 then (csum : ℚ) / (cnt : ℚ) else 0
      ⟨clampScore avg, issues⟩
    | .error (m, issues) => ⟨0, issues ++ ["Error running radon: " ++ m]⟩

/-- PythonAnalyzer.analyze_security; bandit runs once on the directory. -/
def analyze_security (dir : List String) (bandit : Except String (List String)) :
    MetricResult :=
  let pythonFiles := filesMatching dir PYTHON_EXTENSIONS
  if pythonFiles = [] then ⟨10, ["No Python files found"]⟩
  else
    match bandit with
    | .error m => ⟨0, ["Error running bandit: " ++ m]⟩
    | .ok lines =>
      let sel := lines.filter
        (fun l => strContains l "Issue:" || strContains l "Location:" || strContains l "Severity:")
      let issueCount := (sel.filter (fun l => strContains l "Issue:")).length
      if sel.isEmpty then ⟨10, sel ++ ["No security issues found"]⟩
      else ⟨clampScore (issueCount : ℚ), sel⟩

end PythonAnalyzer

/-! ## JavaScriptAnalyzer (src/analyzers/javascript_analyzer.py) -/

namespace JavaScriptAnalyzer

/-- get_extensions of the JavaScript analyzer. -/
def jsExtensions : List String := JAVASCRIPT_EXTENSIONS ++ TYPESCRIPT_EXTENSIONS

/-- One parsed ESLint message dict (fields already rendered by the f-string
interpolation of the Python values). -/
structure EslintMsg where
  line : String
  column : String
  message : String
  ruleId : String
deriving DecidableEq

/-- Outcome of one `npx eslint --format=json` call in analyze_style:
`parsed` covers a zero-exit run as well as a CalledProcessError whose output
still parses as JSON (both take the same message loop); `unparsed` is a
CalledProcessError whose output is not JSON; `jsonError` is a zero-exit run
whose output is not JSON (the JSONDecodeError else-branch); `exn` is an
exception escaping to the method-level handler. -/
inductive EslintRun where
  | parsed (results : List (List EslintMsg))
  | unparsed (output : String)
  | jsonError (msg : String)
  | exn (msg : String)
deriving DecidableEq

/-- Issue string of one ESLint style message. -/
def eslintIssueStr (f : String) (m : EslintMsg) : String :=
  f ++ ":" ++ m.line ++ ":" ++ m.column ++ " - " ++ m.message ++ " (" ++ m.ruleId ++ ")"

/-- ESLint loop of analyze_style. -/
def styleLoop (eslint : String → EslintRun) :
    List String → Nat → List String → Except (String × List String) (Nat × List String)
  | [], total, issues => .ok (total, issues)
  | f :: rest, total, issues =>
    match eslint f with
    | .exn m => .error (m, issues)
    | .parsed results =>
      let msgs := results.flatten
      styleLoop eslint rest (total + msgs.length) (issues ++ msgs.map (eslintIssueStr f))
    | .unparsed output =>
      styleLoop eslint rest total
        (issues ++ ["Error parsing ESLint output for " ++ f ++ ": " ++ output])
    | .jsonError m =>
      styleLoop eslint rest total
        (issues ++ ["Error running ESLint on " ++ f ++ ": " ++ m])

/-- JavaScriptAnalyzer.analyze_style.  (The temporary .eslintrc.json file the
method creates and removes has no effect on the returned result and is not
modelled.) -/
def analyze_style (dir : List String) (eslint : String → EslintRun) : MetricResult :=
  let jsFiles := filesMatching dir jsExtensions
  if jsFiles = [] then ⟨10, ["No JavaScript/TypeScript files found"]⟩
  else
    match styleLoop eslint jsFiles 0 [] with
    | .ok (total, issues) =>
      ⟨clampScore ((total : ℚ) / (jsFiles.length : ℚ)), issues⟩
    | .error (m, issues) => ⟨0, issues ++ ["Error running ESLint: " ++ m]⟩

/-- One parsed JSHint issue dict. -/
structure JshintIssue where
  line : String
  col : String
  reason : String
deriving DecidableEq

/-- Outcome of one `npx jshint --reporter=json` call, with the same four
cases as `EslintRun` (the unparsed message carries no output text here). -/
inductive JshintRun where
  | parsed (results : List JshintIssue)
  | unparsed
  | jsonError (msg : String)
  | exn (msg : String)
deriving DecidableEq

/-- Issue string of one JSHint issue. -/
def jshintIssueStr (f : String) (i : JshintIssue) : String :=
  f ++ ":" ++ i.line ++ ":" ++ i.col ++ " - " ++ i.reason

/-- JSHint loop of analyze_quality. -/
def qualityLoop (jshint : String → JshintRun) :
    List String → Nat → List String → Except (String × List String) (Nat × List String)
  | [], total, issues => .ok (total, issues)
  | f :: rest, total, issues =>
    match jshint f with
    | .exn m => .error (m, issues)
    | .parsed results =>
      qualityLoop jshint rest (total + results.length)
        (issues ++ results.map (jshintIssueStr f))
    | .unparsed =>
      qualityLoop jshint rest total (issues ++ ["Error parsing JSHint output for " ++ f])
    | .jsonError m =>
      qualityLoop jshint rest total
        (issues ++ ["Error running JSHint on " ++ f ++ ": " ++ m])

/-- JavaScriptAnalyzer.analyze_quality. -/
def analyze_quality (dir : List String) (jshint : String → JshintRun) : MetricResult :=
  let jsFiles := filesMatching dir jsExtensions
  if jsFiles = [] then ⟨10, ["No JavaScript/TypeScript files found"]⟩
  else
    match qualityLoop jshint jsFiles 0 [] with
    | .ok (total, issues) =>
      ⟨clampScore (((total : ℚ) / (jsFiles.length : ℚ)) * 2), issues⟩
    | .error (m, issues) => ⟨0, issues ++ ["Error running JSHint: " ++ m]⟩

/-- One parsed ESLint message in analyze_complexity; `complexityNum` is the
number matched by `has a complexity of (\d+)` in the message text (`none`
makes the Python code hit an AttributeError on `.group`). -/
structure ComplexityMsg where
  line : String
  column : String
  message : String
  ruleId : String
  complexityNum : Option Nat
deriving DecidableEq

/-- Outcome of the eslint complexity call on one file: `err` covers the
CalledProcessError / JSONDecodeError cases of the per-file handler (ESLint
exits non-zero whenever it reports an error-level message, and
analyze_complexity, unlike analyze_style, does not re-parse `e.output`);
`exn` is an exception escaping to the method-level handler (this also stands
for the `npm install` call of the same loop body raising). -/
inductive ComplexityRun where
  | parsed (results : List (List ComplexityMsg))
  | err (msg : String)
  | exn (msg : String)
deriving DecidableEq

/-- str() of the AttributeError raised by `.group` on a failed regex search;
the interpreter-supplied text is abstracted by this constant. -/
def attributeErrorMsg : String := "AttributeError"

/-- Issue string of one complexity message (no ruleId suffix here). -/
def complexityIssueStr (f : String) (m : ComplexityMsg) : String :=
  f ++ ":" ++ m.line ++ ":" ++ m.column ++ " - " ++ m.message

/-- The complexity values carried by the ruleId = "complexity" messages of
one parsed eslint result (what the spec calls the reported values). -/
def complexityVals (msgs : List ComplexityMsg) : List Nat :=
  (msgs.filter (fun m => m.ruleId = "complexity")).filterMap (·.complexityNum)

/-- Message loop of analyze_complexity for one file: returns the issues
appended, the complexity sum added, the per-file complexity_issues count,
and whether an AttributeError aborted the file (in which case the handler
issue string is the last one appended and the `file_count` update is
skipped even though the partial sums were already applied). -/
def complexityMsgLoop (f : String) : List ComplexityMsg → List String × Nat × Nat × Bool
  | [] => ([], 0, 0, false)
  | m :: rest =>
    if m.ruleId = "complexity" then
      match m.complexityNum with
      | none =>
        (["Error analyzing complexity for " ++ f ++ ": " ++ attributeErrorMsg], 0, 0, true)
      | some c =>
        let r := complexityMsgLoop f rest
        (complexityIssueStr f m :: r.1, c + r.2.1, 1 + r.2.2.1, r.2.2.2)
    else complexityMsgLoop f rest

/-- File loop of analyze_complexity: accumulates total_complexity, the count
of files with at least one complexity issue, and the issue strings. -/
def complexityLoop (eslintC : String → ComplexityRun) :
    List String → Nat → Nat → List String →
    Except (String × List String) (Nat × Nat × List String)
  | [], total, fileCount, issues => .ok (total, fileCount, issues)
  | f :: rest, total, fileCount, issues =>
    match eslintC f with
    | .exn m => .error (m, issues)
    | .err m =>
      complexityLoop eslintC rest total fileCount
        (issues ++ ["Error analyzing complexity for " ++ f ++ ": " ++ m])
    | .parsed results =>
      let r := complexityMsgLoop f results.flatten
      let fileCount' := if !r.2.2.2 && r.2.2.1 > 0 then fileCount + 1 else fileCount
      complexityLoop eslintC rest (total + r.2.1) fileCount' (issues ++ r.1)

/-- JavaScriptAnalyzer.analyze_complexity. -/
def analyze_complexity (dir : List String) (eslintC : String → ComplexityRun) : MetricResult :=
  let jsFiles := filesMatching dir jsExtensions
  if jsFiles = [] then ⟨10, ["No JavaScript/TypeScript files found"]⟩
  else
    match complexityLoop eslintC jsFiles 0 0 [] with
    | .ok (total, fileCount, issues) =>
      let avg : ℚ := if fileCount > 0 then (total : ℚ) / (fileCount : ℚ) else 0
      ⟨clampScore (avg / 2), issues⟩
    | .error (m, issues) => ⟨0, issues ++ ["Error analyzing complexity: " ++ m]⟩

/-- One value of the npm audit vulnerabilities dict, after the `.get`
defaulting of `count` to 0; `severity` is `none` when the key is absent. -/
structure VulnData where
  severity : Option String
  count : Nat
deriving DecidableEq

/-- Outcome of the `npm audit --json` call: `err` covers the inner
CalledProcessError / JSONDecodeError handler, `exn` the method-level one. -/
inductive AuditRun where
  | parsed (vulns : List (String × VulnData))
  | err (msg : String)
  | exn (msg : String)
deriving DecidableEq

/-- The severity_weights dict lookup with default 1. -/
def severityWeight (s : String) : Nat :=
  if s = "critical" then 4
  else if s = "high" then 3
  else if s = "moderate" then 2
  else if s = "low" then 1
  else 1

/-- Issue string for one vulnerabilities entry. -/
def vulnIssueStr (p : String × VulnData) : String :=
  "Found " ++ toString p.2.count ++ " " ++ (p.2.severity.getD "unknown") ++
    " severity vulnerability(ies) in " ++ p.1

/-- The severity-weighted issue count of analyze_security. -/
def weightedIssues (vulns : List (String × VulnData)) : Nat :=
  (vulns.map (fun p => p.2.count * severityWeight (p.2.severity.getD "low"))).sum

/-- JavaScriptAnalyzer.analyze_security. -/
def analyze_security (dir : List String) (packageJsonExists : Bool) (audit : AuditRun) :
    MetricResult :=
  let jsFiles := filesMatching dir jsExtensions
  if jsFiles = [] then ⟨10, ["No JavaScript/TypeScript files found"]⟩
  else if !packageJsonExists then
    ⟨5, ["No package.json found, skipping security audit"]⟩
  else
    match audit with
    | .exn m => ⟨0, ["Error in security analysis: " ++ m]⟩
    | .err m => ⟨0, ["Error running npm audit: " ++ m]⟩
    | .parsed vulns =>
      let issueStrs := vulns.map vulnIssueStr
      let total := (vulns.map (fun p => p.2.count)).sum
      if total = 0 then ⟨10, issueStrs ++ ["No security vulnerabilities found"]⟩
      else ⟨clampScore ((weightedIssues vulns : ℚ) / 2), issueStrs⟩

end JavaScriptAnalyzer

/-! ## JavaAnalyzer (src/analyzers/java_analyzer.py) -/

namespace JavaAnalyzer

/-- Outcome of a checkstyle or pmd run: zero-exit output lines, the output
lines recovered from a CalledProcessError, or an escaping exception. -/
inductive ToolRun where
  | ok (lines : List String)
  | failed (lines : List String)
  | exn (msg : String)
deriving DecidableEq

/-- Step outcome of the checkstyle file loop. -/
inductive StyleStep where
  | done (total : Nat) (issues : List String)
  | jarMissing (issues : List String)
  | aborted (msg : String) (issues : List String)
deriving DecidableEq

/-- The `^\[ERROR\]` lines kept from one checkstyle run: on a zero-exit run
the line loop is guarded by `if lines and lines[0]`; on a
CalledProcessError it is not. -/
def checkstyleSel : ToolRun → List String
  | .ok lines =>
    match lines with
    | [] => []
    | l0 :: _ => if l0 = "" then [] else lines.filter (fun l => strStartsWith l "[ERROR]")
  | .failed lines => lines.filter (fun l => strStartsWith l "[ERROR]")
  | .exn _ => []

/-- Checkstyle loop of analyze_style; the JAR existence test sits inside the
loop body and is modelled by the constant `jarExists`. -/
def styleLoop (jarExists : Bool) (jarPath : String) (checkstyle : String → ToolRun) :
    List String → Nat → List String → StyleStep
  | [], total, issues => .done total issues
  | f :: rest, total, issues =>
    if !jarExists then
      .jarMissing (issues ++
        ["Checkstyle JAR not found at " ++ jarPath ++ ", skipping style analysis"])
    else
      match checkstyle f with
      | .exn m => .aborted m issues
      | r =>
        styleLoop jarExists jarPath checkstyle rest (total + (checkstyleSel r).length)
          (issues ++ checkstyleSel r)

/-- JavaAnalyzer.analyze_style; `jarPath` is the expanded
`~/checkstyle.jar` path interpolated into the missing-JAR message. -/
def analyze_style (dir : List String) (jarExists : Bool) (jarPath : String)
    (checkstyle : String → ToolRun) : MetricResult :=
  let javaFiles := filesMatching dir JAVA_EXTENSIONS
  if javaFiles = [] then ⟨10, ["No Java files found"]⟩
  else
    match styleLoop jarExists jarPath checkstyle javaFiles 0 [] with
    | .done total issues =>
      ⟨clampScore ((total : ℚ) / (javaFiles.length : ℚ)), issues⟩
    | .jarMissing issues => ⟨5, issues⟩
    | .aborted m issues => ⟨0, issues ++ ["Error running Checkstyle: " ++ m]⟩

/-- The lines kept from the pmd check run: on a zero-exit run all lines
behind the `if lines and lines[0]` guard; on a CalledProcessError the lines
not starting with "Usage:" or "Options:". -/
def pmdSel : ToolRun → List String
  | .ok lines =>
    match lines with
    | [] => []
    | l0 :: _ => if l0 = "" then [] else lines
  | .failed lines =>
    lines.filter (fun l => !(strStartsWith l "Usage:") && !(strStartsWith l "Options:"))
  | .exn _ => []

/-- JavaAnalyzer.analyze_quality; `pmdAvailable` is the `pmd --version`
probe (False covers both CalledProcessError and FileNotFoundError). -/
def analyze_quality (dir : List String) (pmdAvailable : Bool) (pmd : ToolRun) :
    MetricResult :=
  let javaFiles := filesMatching dir JAVA_EXTENSIONS
  if javaFiles = [] then ⟨10, ["No Java files found"]⟩
  else if !pmdAvailable then ⟨5, ["PMD not found, skipping quality analysis"]⟩
  else
    match pmd with
    | .exn m => ⟨0, ["Error running PMD: " ++ m]⟩
    | r => ⟨clampScore (((pmdSel r).length : ℚ) / (javaFiles.length : ℚ)), pmdSel r⟩

/-- Per-file data of the heuristic complexity scan: the regex match counts
of the five branch statements and `len(content.split(chr 10))`. -/
structure JavaStats where
  ifCount : Nat
  forCount : Nat
  whileCount : Nat
  switchCount : Nat
  catchCount : Nat
  lineCount : Nat
deriving DecidableEq

/-- The branch-statement total of one file. -/
def statComplexity (s : JavaStats) : Nat :=
  s.ifCount + s.forCount + s.whileCount + s.switchCount + s.catchCount

/-- The size-normalised complexity of one file:
`complexity / (len(content.split(chr 10)) / 100)`. -/
def javaFileComplexity (s : JavaStats) : ℚ :=
  (statComplexity s : ℚ) / ((s.lineCount : ℚ) / 100)

/-- File loop of analyze_complexity; a per-file exception is caught inside
the loop, appends one issue and continues with the next file. -/
def complexityLoop (stats : String → Except String JavaStats) :
    List String → ℚ → Nat → List String → ℚ × Nat × List String
  | [], total, fileCount, issues => (total, fileCount, issues)
  | f :: rest, total, fileCount, issues =>
    match stats f with
    | .error m =>
      complexityLoop stats rest total fileCount
        (issues ++ ["Error analyzing complexity for " ++ f ++ ": " ++ m])
    | .ok s =>
      let c := statComplexity s
      if c > 0 then
        complexityLoop stats rest (total + javaFileComplexity s) (fileCount + 1)
          (issues ++ [f ++ ": Estimated complexity: " ++ toString c ++ " statements"])
      else complexityLoop stats rest total fileCount issues

/-- JavaAnalyzer.analyze_complexity. -/
def analyze_complexity (dir : List String) (stats : String → Except String JavaStats) :
    MetricResult :=
  let javaFiles := filesMatching dir JAVA_EXTENSIONS
  if javaFiles = [] then ⟨10, ["No Java files found"]⟩
  else
    let r := complexityLoop stats javaFiles 0 0 []
    if r.2.1 = 0 then ⟨10, r.2.2 ++ ["No complexity issues found"]⟩
    else ⟨clampScore ((r.1 / (r.2.1 : ℚ)) / 2), r.2.2⟩

/-- The issue-type labels of the 20 security_patterns regexes, in order. -/
def securityPatternLabels : List String :=
  ["Potential command injection",
   "Potential SQL injection",
   "Potential SQL injection",
   "Potential SQL injection",
   "Potential SQL injection",
   "Potential HQL/JPQL injection",
   "Potential code injection",
   "Potential deserialization vulnerability",
   "Potential deserialization vulnerability",
   "Potential deserialization vulnerability",
   "Potential deserialization vulnerability",
   "Potential deserialization vulnerability",
   "Potential deserialization vulnerability",
   "Potential unsafe resource loading",
   "Information leakage through stack traces",
   "Debug information leakage",
   "Unvalidated input",
   "Unvalidated header",
   "Unvalidated cookie",
   "Unvalidated attribute"]

/-- Pattern loop of the fallback scan for one file: the oracle gives the
`len(re.findall(pattern, content))` count for each of the 20 patterns. -/
def scanFile (f : String) (counts : List Nat) : List String × Nat :=
  ((securityPatternLabels.zip counts).foldl
    (fun acc lc =>
      if lc.2 > 0 then
        (acc.1 ++ [f ++ ": " ++ lc.1 ++ " (" ++ toString lc.2 ++ " occurrences)"],
         acc.2 + lc.2)
      else acc)
    ([], 0))

/-- File loop of the fallback scan; a per-file exception is caught inside
the loop, appends one issue and continues. -/
def scanLoop (scan : String → Except String (List Nat)) :
    List String → List String → Nat → List String × Nat
  | [], issues, total => (issues, total)
  | f :: rest, issues, total =>
    match scan f with
    | .error m =>
      scanLoop scan rest (issues ++ ["Error analyzing security for " ++ f ++ ": " ++ m]) total
    | .ok counts =>
      let r := scanFile f counts
      scanLoop scan rest (issues ++ r.1) (total + r.2)

/-- The javac compile loop of the SpotBugs path: a CalledProcessError is
passed over, so the oracle only reports exceptions escaping to the
method-level handler. -/
def javacLoop (javac : String → Except String Unit) : List String → Except String Unit
  | [] => .ok ()
  | f :: rest =>
    match javac f with
    | .error m => .error m
    | .ok _ => javacLoop javac rest

/-- Outcome of the SpotBugs run: zero-exit output lines, a
CalledProcessError (whose str(e) goes into the issue), or an escaping
exception. -/
inductive SpotbugsRun where
  | ok (lines : List String)
  | failed (msg : String)
  | exn (msg : String)
deriving DecidableEq

/-- The SpotBugs output line filter: a flag set by any line containing
"Warnings generated:", after which non-blank lines not starting with that
prefix are kept (the flag is set before the keep test of the same line). -/
def spotbugsFilter : List String → Bool → List String
  | [], _ => []
  | l :: rest, found =>
    let found' := found || strContains l "Warnings generated:"
    if found' && (pyStrip l != "") && !(strStartsWith l "Warnings generated:") then
      l :: spotbugsFilter rest found'
    else spotbugsFilter rest found'

/-- JavaAnalyzer.analyze_security; `jarPath` is the expanded
`~/spotbugs/lib/spotbugs.jar` path interpolated into the fallback message. -/
def analyze_security (dir : List String) (jarExists : Bool) (jarPath : String)
    (scan : String → Except String (List Nat)) (javac : String → Except String Unit)
    (spotbugs : SpotbugsRun) : MetricResult :=
  let javaFiles := filesMatching dir JAVA_EXTENSIONS
  if javaFiles = [] then ⟨10, ["No Java files found"]⟩
  else if !jarExists then
    let head := "SpotBugs JAR not found at " ++ jarPath ++ ", using alternative security analysis"
    let r := scanLoop scan javaFiles [] 0
    if r.2 = 0 then ⟨10, head :: r.1 ++ ["No security issues found"]⟩
    else ⟨clampScore ((r.2 : ℚ) / 2), head :: r.1⟩
  else
    match javacLoop javac javaFiles with
    | .error m => ⟨0, ["Error in security analysis: " ++ m]⟩
    | .ok _ =>
      match spotbugs with
      | .exn m => ⟨0, ["Error in security analysis: " ++ m]⟩
      | .failed m => ⟨0, ["Error running SpotBugs: " ++ m]⟩
      | .ok lines =>
        let issues := spotbugsFilter lines false
        if issues.length = 0 then ⟨10, issues ++ ["No security issues found"]⟩
        else ⟨clampScore ((issues.length : ℚ) / 2), issues⟩

end JavaAnalyzer

/-! ## app.py: dispatch, aggregation, summary table -/

/-- The fixed extension→analyzer factory of get_language_analyzer,
returning only which analyzer class is instantiated. -/
inductive AnalyzerKind where
  | python
  | javascript
  | java
deriving DecidableEq

/-- get_language_analyzer. -/
def get_language_analyzer (e : String) : Option AnalyzerKind :=
  if [".py"].contains e then some .python
  else if [".js", ".jsx", ".ts", ".tsx"].contains e then some .javascript
  else if [".java"].contains e then some .java
  else none

/-- get_language_name. -/
def get_language_name (e : String) : String := (LANGUAGE_BY_EXTENSION e).getD "Unknown"

/-- One language entry of the language_metrics dict. -/
structure LangData where
  files : List String
  style : MetricResult
  quality : MetricResult
  complexity : MetricResult
  security : MetricResult
deriving DecidableEq

/-- The freshly initialised entry of analyze_directory. -/
def initLangData (files : List String) : LangData :=
  ⟨files, ⟨0, []⟩, ⟨0, []⟩, ⟨0, []⟩, ⟨0, []⟩⟩

/-- Append a file to a language key of the insertion-ordered dict,
creating the key at the end when absent. -/
def addToGroup (acc : List (String × List String)) (lang : String) (f : String) :
    List (String × List String) :=
  match acc with
  | [] => [(lang, [f])]
  | (l, fs) :: rest =>
    if l = lang then (l, fs ++ [f]) :: rest
    else (l, fs) :: addToGroup rest lang f

/-- The file-grouping walk of analyze_directory: files whose splitext
extension is in ALL_EXTENSIONS are grouped by language. -/
def groupFiles : List String → List (String × List String) → List (String × List String)
  | [], acc => acc
  | f :: rest, acc =>
    let ext := splitextExt f
    if ALL_EXTENSIONS.contains ext then
      groupFiles rest (addToGroup acc (get_language_name ext) f)
    else groupFiles rest acc

/-- Every external-tool oracle an analysis run consumes, one field per
tool interaction of the three analyzers. -/
structure ToolEnv where
  flake8 : String → Except String (List String)
  pylint : String → Except String PythonAnalyzer.PylintOut
  radon : String → Except String (List PythonAnalyzer.RadonLine)
  bandit : Except String (List String)
  eslint : String → JavaScriptAnalyzer.EslintRun
  jshint : String → JavaScriptAnalyzer.JshintRun
  eslintComplexity : String → JavaScriptAnalyzer.ComplexityRun
  packageJsonExists : Bool
  npmAudit : JavaScriptAnalyzer.AuditRun
  checkstyleJarExists : Bool
  checkstyleJarPath : String
  checkstyle : String → JavaAnalyzer.ToolRun
  pmdAvailable : Bool
  pmd : JavaAnalyzer.ToolRun
  javaStats : String → Except String JavaAnalyzer.JavaStats
  spotbugsJarExists : Bool
  spotbugsJarPath : String
  javaScan : String → Except String (List Nat)
  javac : String → Except String Unit
  spotbugs : JavaAnalyzer.SpotbugsRun

/-- The four metric calls analyze_directory makes for one analyzer, in the
fixed style, quality, complexity, security order. -/
def runAnalyzer (k : AnalyzerKind) (dir : List String) (env : ToolEnv) :
    MetricResult × MetricResult × MetricResult × MetricResult :=
  match k with
  | .python =>
    (PythonAnalyzer.analyze_style dir env.flake8,
     PythonAnalyzer.analyze_quality dir env.pylint,
     PythonAnalyzer.analyze_complexity dir env.radon,
     PythonAnalyzer.analyze_security dir env.bandit)
  | .javascript =>
    (JavaScriptAnalyzer.analyze_style dir env.eslint,
     JavaScriptAnalyzer.analyze_quality dir env.jshint,
     JavaScriptAnalyzer.analyze_complexity dir env.eslintComplexity,
     JavaScriptAnalyzer.analyze_security dir env.packageJsonExists env.npmAudit)
  | .java =>
    (JavaAnalyzer.analyze_style dir env.checkstyleJarExists env.checkstyleJarPath env.checkstyle,
     JavaAnalyzer.analyze_quality dir env.pmdAvailable env.pmd,
     JavaAnalyzer.analyze_complexity dir env.javaStats,
     JavaAnalyzer.analyze_security dir env.spotbugsJarExists env.spotbugsJarPath
       env.javaScan env.javac env.spotbugs)

/-- The per-language analysis step of analyze_directory: the extension of
the first grouped file selects the analyzer; a language without one keeps
its all-zero metrics. -/
def analyzeEntry (dir : List String) (env : ToolEnv) (p : String × List String) :
    String × LangData :=
  match p.2 with
  | [] => (p.1, initLangData p.2)
  | f0 :: _ =>
    match get_language_analyzer (splitextExt f0) with
    | none => (p.1, initLangData p.2)
    | some k =>
      let r := runAnalyzer k dir env
      (p.1, ⟨p.2, r.1, r.2.1, r.2.2.1, r.2.2.2⟩)

/-- analyze_directory. -/
def analyze_directory (dir : List String) (env : ToolEnv) : List (String × LangData) :=
  (groupFiles dir []).map (analyzeEntry dir env)

/-- One row of the summary table of generate_report, with the numeric cells
kept unrounded (the "{:.1f}" formatting is display-only). -/
structure SummaryRow where
  label : String
  fileCount : Nat
  style : ℚ
  quality : ℚ
  complexity : ℚ
  security : ℚ
  overall : ℚ
deriving DecidableEq

/-- The running overall_scores sums of generate_report. -/
structure ScoreAcc where
  rows : List SummaryRow
  style : ℚ
  quality : ℚ
  complexity : ℚ
  security : ℚ
  overall : ℚ

/-- The per-language data row of the summary table. -/
def langRow (p : String × LangData) : SummaryRow :=
  let s := p.2.style.score
  let q := p.2.quality.score
  let c := p.2.complexity.score
  let se := p.2.security.score
  ⟨p.1, p.2.files.length, s, q, c, se, (s + q + c + se) / 4⟩

/-- The summary-table loop of generate_report: build one row per language
while accumulating the overall_scores sums. -/
def summaryLoop : List (String × LangData) → ScoreAcc → ScoreAcc
  | [], acc => acc
  | p :: rest, acc =>
    let r := langRow p
    summaryLoop rest
      ⟨acc.rows ++ [r], acc.style + r.style, acc.quality + r.quality,
       acc.complexity + r.complexity, acc.security + r.security, acc.overall + r.overall⟩

/-- The data rows of the summary table of generate_report (header row
omitted): the per-language rows, plus the "Overall" row dividing the
accumulated sums by the number of languages when more than one language is
present. -/
def summaryTable (m : List (String × LangData)) : List SummaryRow :=
  let acc := summaryLoop m ⟨[], 0, 0, 0, 0, 0⟩
  let n := m.length
  if 1 < n then
    acc.rows ++
      [⟨"Overall", (m.map (fun p => p.2.files.length)).sum,
        acc.style / (n : ℚ), acc.quality / (n : ℚ), acc.complexity / (n : ℚ),
        acc.security / (n : ℚ), acc.overall / (n : ℚ)⟩]
  else acc.rows

/-! ## Observation helpers for the aggregator theorems -/

/-- The components of an analyze_directory entry other than its quality
metric (name, files, style, complexity, security). -/
def entryNonQuality (p : String × LangData) :
    String × List String × MetricResult × MetricResult × MetricResult :=
  (p.1, p.2.files, p.2.style, p.2.complexity, p.2.security)

/-- Whether the aggregator dispatches an entry to the Python analyzer (the
analyzer is chosen from the extension of the entry's first file). -/
def entryUsesPython (p : String × LangData) : Bool :=
  match p.2.files with
  | [] => false
  | f0 :: _ => decide (get_language_analyzer (splitextExt f0) = some AnalyzerKind.python)

/-- Well-formedness of the grouping dict: every entry holds a non-empty
file list whose files are recognised and classified to the entry's key. -/
def GroupOK (acc : List (String × List String)) : Prop :=
  ∀ p ∈ acc, p.2 ≠ [] ∧ ∀ g ∈ p.2,
    ALL_EXTENSIONS.contains (splitextExt g) = true ∧
    get_language_name (splitextExt g) = p.1

/-! ## Score formulas as worded by the specification (for comparison with
the code formulas; these two follow the spec text, not the source) -/

/-- The complexity score formula as the spec words it: clamp of the MEAN of
the tool-reported complexity values, divided by the per-analyzer divisor. -/
def claimComplexityScore (values : List ℚ) (divisor : ℚ) : ℚ :=
  clampScore ((values.sum / (values.length : ℚ)) / divisor)

/-- The npm-audit security score formula as the spec words it: clamp of the
severity-weighted issue count, with no further division. -/
def claimAuditScore (vulns : List (String × JavaScriptAnalyzer.VulnData)) : ℚ :=
  clampScore (JavaScriptAnalyzer.weightedIssues vulns : ℚ)

/-! # Theorems -/

theorem clampScore_nonneg (x : ℚ) : 0 ≤ clampScore x := le_max_left 0 _

theorem clampScore_le_ten {x : ℚ} (h : 0 ≤ x) : clampScore x ≤ 10 := by
  have h1 : (0 : ℚ) ≤ min 10 x := le_min (by norm_num) h
  unfold clampScore
  exact max_le (by norm_num) (by linarith)

theorem clampScore_mem {x : ℚ} (h : 0 ≤ x) : 0 ≤ clampScore x ∧ clampScore x ≤ 10 :=
  ⟨clampScore_nonneg x, clampScore_le_ten h⟩

/-- Nonnegative quotient of two natural-number casts. -/
theorem natCast_div_nonneg (a b : Nat) : (0 : ℚ) ≤ (a : ℚ) / (b : ℚ) :=
  div_nonneg (Nat.cast_nonneg a) (Nat.cast_nonneg b)

namespace PythonAnalyzer

theorem py_analyze_style_range (dir : List String)
    (flake8 : String → Except String (List String)) :
    0 ≤ (analyze_style dir flake8).score ∧ (analyze_style dir flake8).score ≤ 10 := by
  by_cases he : filesMatching dir PYTHON_EXTENSIONS = []
  · simp [analyze_style, he]
  · cases hl : styleLoop flake8 (filesMatching dir PYTHON_EXTENSIONS) 0 [] with
    | ok p =>
      simp only [analyze_style, he, if_false, hl]
      exact clampScore_mem (natCast_div_nonneg _ _)
    | error p =>
      obtain ⟨m, is'⟩ := p
      simp [analyze_style, he, hl]

/-- The per-file score added by the pylint loop is in [0, 10] whenever the
parsed rating is at most 10, and is always nonnegative. -/
theorem qualityLoop_ok_nonneg (pylint : String → Except String PylintOut) :
    ∀ (fs : List String) (total : ℚ) (issues : List String) (t : ℚ) (is' : List String),
      qualityLoop pylint fs total issues = .ok (t, is') → 0 ≤ total → 0 ≤ t := by
  intro fs
  induction fs with
  | nil =>
    intro total issues t is' h ht
    simp only [qualityLoop, Except.ok.injEq, Prod.mk.injEq] at h
    exact h.1 ▸ ht
  | cons f rest ih =>
    intro total issues t is' h ht
    cases hp : pylint f with
    | error m => simp [qualityLoop, hp] at h
    | ok out =>
      simp only [qualityLoop, hp] at h
      refine ih _ _ _ _ h ?_
      have : (0 : ℚ) ≤ match out.rating with
          | none => 0
          | some r => if r < 0 then 0 else r := by
        cases out.rating with
        | none => norm_num
        | some r =>
          by_cases hr : r < 0 <;> simp [hr]
          linarith
      linarith

/-- Upper bound of the pylint loop total when every parsed rating is ≤ 10. -/
theorem qualityLoop_ok_le (pylint : String → Except String PylintOut)
    (hb : ∀ f out r, pylint f = .ok out → out.rating = some r → r ≤ 10) :
    ∀ (fs : List String) (total : ℚ) (issues : List String) (t : ℚ) (is' : List String),
      qualityLoop pylint fs total issues = .ok (t, is') →
      t ≤ total + 10 * fs.length := by
  intro fs
  induction fs with
  | nil =>
    intro total issues t is' h
    simp only [qualityLoop, Except.ok.injEq, Prod.mk.injEq] at h
    simp [← h.1]
  | cons f rest ih =>
    intro total issues t is' h
    cases hp : pylint f with
    | error m => simp [qualityLoop, hp] at h
    | ok out =>
      simp only [qualityLoop, hp] at h
      have h2 := ih _ _ _ _ h
      have hfs : (match out.rating with
          | none => (0 : ℚ)
          | some r => if r < 0 then 0 else r) ≤ 10 := by
        cases hr : out.rating with
        | none => norm_num
        | some r =>
          by_cases hneg : r < 0
          · simp [hneg]
          · simp only [hneg, if_false]
            exact hb f out r hp hr
      simp only [List.length_cons]
      push_cast
      push_cast at h2
      linarith

theorem analyze_quality_nonneg (dir : List String)
    (pylint : String → Except String PylintOut) :
    0 ≤ (analyze_quality dir pylint).score := by
  by_cases he : filesMatching dir PYTHON_EXTENSIONS = []
  · simp [analyze_quality, he]
  · cases hl : qualityLoop pylint (filesMatching dir PYTHON_EXTENSIONS) 0 [] with
    | ok p =>
      obtain ⟨t, is'⟩ := p
      simp only [analyze_quality, he, if_false, hl]
      exact div_nonneg (qualityLoop_ok_nonneg pylint _ 0 [] t is' hl le_rfl)
        (Nat.cast_nonneg _)
    | error p =>
      obtain ⟨m, is'⟩ := p
      simp [analyze_quality, he, hl]

theorem analyze_quality_le_ten (dir : List String)
    (pylint : String → Except String PylintOut)
    (hb : ∀ f out r, pylint f = .ok out → out.rating = some r → r ≤ 10) :
    (analyze_quality dir pylint).score ≤ 10 := by
  by_cases he : filesMatching dir PYTHON_EXTENSIONS = []
  · simp [analyze_quality, he]
  · cases hl : qualityLoop pylint (filesMatching dir PYTHON_EXTENSIONS) 0 [] with
    | ok p =>
      obtain ⟨t, is'⟩ := p
      simp only [analyze_quality, he, if_false, hl]
      have hlen : 0 < (filesMatching dir PYTHON_EXTENSIONS).length :=
        List.length_pos.mpr he
      have h2 := qualityLoop_ok_le pylint hb _ 0 [] t is' hl
      show t / ((filesMatching dir PYTHON_EXTENSIONS).length : ℚ) ≤ 10
      rw [div_le_iff₀ (by exact_mod_cast hlen)]
      linarith
    | error p =>
      obtain ⟨m, is'⟩ := p
      simp [analyze_quality, he, hl]

theorem py_analyze_complexity_range (dir : List String)
    (radon : String → Except String (List RadonLine)) :
    0 ≤ (analyze_complexity dir radon).score ∧ (analyze_complexity dir radon).score ≤ 10 := by
  by_cases he : filesMatching dir PYTHON_EXTENSIONS = []
  · simp [analyze_complexity, he]
  · cases hl : complexityLoop radon (filesMatching dir PYTHON_EXTENSIONS) 0 0 [] with
    | ok p =>
      obtain ⟨csum, cnt, is'⟩ := p
      simp only [analyze_complexity, he, if_false, hl]
      refine clampScore_mem ?_
      by_cases hc : cnt ≠ 0 <;> simp [hc]
      exact natCast_div_nonneg _ _
    | error p =>
      obtain ⟨m, is'⟩ := p
      simp [analyze_complexity, he, hl]

theorem py_analyze_security_range (dir : List String)
    (bandit : Except String (List String)) :
    0 ≤ (analyze_security dir bandit).score ∧ (analyze_security dir bandit).score ≤ 10 := by
  by_cases he : filesMatching dir PYTHON_EXTENSIONS = []
  · simp [analyze_security, he]
  · cases bandit with
    | error m => simp [analyze_security, he]
    | ok lines =>
      simp only [analyze_security, he, if_false]
      split
      · exact ⟨by norm_num, by norm_num⟩
      · exact clampScore_mem (Nat.cast_nonneg _)

end PythonAnalyzer

namespace JavaScriptAnalyzer

theorem js_analyze_style_range (dir : List String) (eslint : String → EslintRun) :
    0 ≤ (analyze_style dir eslint).score ∧ (analyze_style dir eslint).score ≤ 10 := by
  by_cases he : filesMatching dir jsExtensions = []
  · simp [analyze_style, he]
  · cases hl : styleLoop eslint (filesMatching dir jsExtensions) 0 [] with
    | ok p =>
      obtain ⟨t, is'⟩ := p
      simp only [analyze_style, he, if_false, hl]
      exact clampScore_mem (natCast_div_nonneg _ _)
    | error p =>
      obtain ⟨m, is'⟩ := p
      simp [analyze_style, he, hl]

theorem js_analyze_quality_range (dir : List String) (jshint : String → JshintRun) :
    0 ≤ (analyze_quality dir jshint).score ∧ (analyze_quality dir jshint).score ≤ 10 := by
  by_cases he : filesMatching dir jsExtensions = []
  · simp [analyze_quality, he]
  · cases hl : qualityLoop jshint (filesMatching dir jsExtensions) 0 [] with
    | ok p =>
      obtain ⟨t, is'⟩ := p
      simp only [analyze_quality, he, if_false, hl]
      exact clampScore_mem (mul_nonneg (natCast_div_nonneg _ _) (by norm_num))
    | error p =>
      obtain ⟨m, is'⟩ := p
      simp [analyze_quality, he, hl]

theorem js_analyze_complexity_range (dir : List String) (eslintC : String → ComplexityRun) :
    0 ≤ (analyze_complexity dir eslintC).score ∧
      (analyze_complexity dir eslintC).score ≤ 10 := by
  by_cases he : filesMatching dir jsExtensions = []
  · simp [analyze_complexity, he]
  · cases hl : complexityLoop eslintC (filesMatching dir jsExtensions) 0 0 [] with
    | ok p =>
      obtain ⟨t, fc, is'⟩ := p
      simp only [analyze_complexity, he, if_false, hl]
      refine clampScore_mem (div_nonneg ?_ (by norm_num))
      by_cases hc : fc > 0 <;> simp [hc]
      exact natCast_div_nonneg _ _
    | error p =>
      obtain ⟨m, is'⟩ := p
      simp [analyze_complexity, he, hl]

theorem js_analyze_security_empty (dir : List String) (pj : Bool) (audit : AuditRun)
    (he : filesMatching dir jsExtensions = []) :
    analyze_security dir pj audit = ⟨10, ["No JavaScript/TypeScript files found"]⟩ := by
  simp [analyze_security, he]

theorem analyze_security_noPackageJson (dir : List String) (audit : AuditRun)
    (he : filesMatching dir jsExtensions ≠ []) :
    analyze_security dir false audit =
      ⟨5, ["No package.json found, skipping security audit"]⟩ := by
  simp [analyze_security, he]

theorem analyze_security_exn (dir : List String) (m : String)
    (he : filesMatching dir jsExtensions ≠ []) :
    analyze_security dir true (.exn m) = ⟨0, ["Error in security analysis: " ++ m]⟩ := by
  simp [analyze_security, he]

theorem analyze_security_err (dir : List String) (m : String)
    (he : filesMatching dir jsExtensions ≠ []) :
    analyze_security dir true (.err m) = ⟨0, ["Error running npm audit: " ++ m]⟩ := by
  simp [analyze_security, he]

theorem analyze_security_parsed_zero (dir : List String)
    (vulns : List (String × VulnData)) (he : filesMatching dir jsExtensions ≠ [])
    (ht : (vulns.map (fun p => p.2.count)).sum = 0) :
    analyze_security dir true (.parsed vulns) =
      ⟨10, vulns.map vulnIssueStr ++ ["No security vulnerabilities found"]⟩ := by
  simp [analyze_security, he, ht]

theorem analyze_security_parsed_pos (dir : List String)
    (vulns : List (String × VulnData)) (he : filesMatching dir jsExtensions ≠ [])
    (ht : (vulns.map (fun p => p.2.count)).sum ≠ 0) :
    analyze_security dir true (.parsed vulns) =
      ⟨clampScore ((weightedIssues vulns : ℚ) / 2), vulns.map vulnIssueStr⟩ := by
  simp [analyze_security, he, ht]

theorem js_analyze_security_range (dir : List String) (packageJsonExists : Bool)
    (audit : AuditRun) :
    0 ≤ (analyze_security dir packageJsonExists audit).score ∧
      (analyze_security dir packageJsonExists audit).score ≤ 10 := by
  by_cases he : filesMatching dir jsExtensions = []
  · rw [js_analyze_security_empty dir _ _ he]
    exact ⟨by norm_num, by norm_num⟩
  · cases packageJsonExists with
    | false =>
      rw [analyze_security_noPackageJson dir _ he]
      exact ⟨by norm_num, by norm_num⟩
    | true =>
      cases audit with
      | exn m => rw [analyze_security_exn dir m he]; exact ⟨le_refl 0, by norm_num⟩
      | err m => rw [analyze_security_err dir m he]; exact ⟨le_refl 0, by norm_num⟩
      | parsed vulns =>
        by_cases ht : (vulns.map (fun p => p.2.count)).sum = 0
        · rw [analyze_security_parsed_zero dir vulns he ht]
          exact ⟨by norm_num, by norm_num⟩
        · rw [analyze_security_parsed_pos dir vulns he ht]
          exact clampScore_mem (div_nonneg (Nat.cast_nonneg _) (by norm_num))

end JavaScriptAnalyzer

namespace JavaAnalyzer

theorem java_analyze_style_range (dir : List String) (jarExists : Bool) (jarPath : String)
    (checkstyle : String → ToolRun) :
    0 ≤ (analyze_style dir jarExists jarPath checkstyle).score ∧
      (analyze_style dir jarExists jarPath checkstyle).score ≤ 10 := by
  by_cases he : filesMatching dir JAVA_EXTENSIONS = []
  · simp [analyze_style, he]
  · cases hl : styleLoop jarExists jarPath checkstyle (filesMatching dir JAVA_EXTENSIONS) 0 [] with
    | done t is' =>
      simp only [analyze_style, he, if_false, hl]
      exact clampScore_mem (natCast_div_nonneg _ _)
    | jarMissing is' => exact ⟨by simp [analyze_style, he, hl], by simp [analyze_style, he, hl]; norm_num⟩
    | aborted m is' => simp [analyze_style, he, hl]

theorem analyze_quality_empty (dir : List String) (pmdAvailable : Bool) (pmd : ToolRun)
    (he : filesMatching dir JAVA_EXTENSIONS = []) :
    analyze_quality dir pmdAvailable pmd = ⟨10, ["No Java files found"]⟩ := by
  unfold analyze_quality
  rw [if_pos he]

theorem analyze_quality_noPmd (dir : List String) (pmd : ToolRun)
    (he : filesMatching dir JAVA_EXTENSIONS ≠ []) :
    analyze_quality dir false pmd = ⟨5, ["PMD not found, skipping quality analysis"]⟩ := by
  unfold analyze_quality
  rw [if_neg he, if_pos (by decide)]

theorem analyze_quality_exn (dir : List String) (m : String)
    (he : filesMatching dir JAVA_EXTENSIONS ≠ []) :
    analyze_quality dir true (.exn m) = ⟨0, ["Error running PMD: " ++ m]⟩ := by
  unfold analyze_quality
  rw [if_neg he, if_neg (by decide)]

theorem analyze_quality_ok (dir : List String) (lines : List String)
    (he : filesMatching dir JAVA_EXTENSIONS ≠ []) :
    analyze_quality dir true (.ok lines) =
      ⟨clampScore (((pmdSel (.ok lines)).length : ℚ) /
        ((filesMatching dir JAVA_EXTENSIONS).length : ℚ)), pmdSel (.ok lines)⟩ := by
  unfold analyze_quality
  rw [if_neg he, if_neg (by decide)]

theorem analyze_quality_failed (dir : List String) (lines : List String)
    (he : filesMatching dir JAVA_EXTENSIONS ≠ []) :
    analyze_quality dir true (.failed lines) =
      ⟨clampScore (((pmdSel (.failed lines)).length : ℚ) /
        ((filesMatching dir JAVA_EXTENSIONS).length : ℚ)), pmdSel (.failed lines)⟩ := by
  unfold analyze_quality
  rw [if_neg he, if_neg (by decide)]

theorem java_analyze_quality_range (dir : List String) (pmdAvailable : Bool)
    (pmd : ToolRun) :
    0 ≤ (analyze_quality dir pmdAvailable pmd).score ∧
      (analyze_quality dir pmdAvailable pmd).score ≤ 10 := by
  by_cases he : filesMatching dir JAVA_EXTENSIONS = []
  · rw [analyze_quality_empty dir _ _ he]
    exact ⟨by norm_num, by norm_num⟩
  · cases pmdAvailable with
    | false =>
      rw [analyze_quality_noPmd dir _ he]
      exact ⟨by norm_num, by norm_num⟩
    | true =>
      cases pmd with
      | exn m =>
        rw [analyze_quality_exn dir m he]
        exact ⟨le_refl 0, by norm_num⟩
      | ok lines =>
        rw [analyze_quality_ok dir lines he]
        exact clampScore_mem (natCast_div_nonneg _ _)
      | failed lines =>
        rw [analyze_quality_failed dir lines he]
        exact clampScore_mem (natCast_div_nonneg _ _)

/-- The running total of the heuristic complexity loop stays nonnegative. -/
theorem complexityLoop_fst_nonneg (stats : String → Except String JavaStats) :
    ∀ (fs : List String) (total : ℚ) (fc : Nat) (issues : List String), 0 ≤ total →
      0 ≤ (complexityLoop stats fs total fc issues).1 := by
  intro fs
  induction fs with
  | nil => intro total fc issues ht; simpa [complexityLoop] using ht
  | cons f rest ih =>
    intro total fc issues ht
    cases hs : stats f with
    | error m => simp only [complexityLoop, hs]; exact ih _ _ _ ht
    | ok s =>
      simp only [complexityLoop, hs]
      by_cases hc : statComplexity s > 0 <;> simp only [hc, if_true, if_false]
      · refine ih _ _ _ ?_
        have : 0 ≤ javaFileComplexity s :=
          div_nonneg (Nat.cast_nonneg _) (div_nonneg (Nat.cast_nonneg _) (by norm_num))
        linarith
      · exact ih _ _ _ ht

theorem java_analyze_complexity_range (dir : List String)
    (stats : String → Except String JavaStats) :
    0 ≤ (analyze_complexity dir stats).score ∧
      (analyze_complexity dir stats).score ≤ 10 := by
  by_cases he : filesMatching dir JAVA_EXTENSIONS = []
  · simp [analyze_complexity, he]
  · simp only [analyze_complexity, he, if_false]
    split
    · exact ⟨by norm_num, by norm_num⟩
    · refine clampScore_mem (div_nonneg (div_nonneg ?_ (Nat.cast_nonneg _)) (by norm_num))
      exact complexityLoop_fst_nonneg stats _ 0 0 [] le_rfl

theorem java_analyze_security_empty (dir : List String) (jarExists : Bool) (jarPath : String)
    (scan : String → Except String (List Nat)) (javac : String → Except String Unit)
    (spotbugs : SpotbugsRun) (he : filesMatching dir JAVA_EXTENSIONS = []) :
    analyze_security dir jarExists jarPath scan javac spotbugs =
      ⟨10, ["No Java files found"]⟩ := by
  simp [analyze_security, he]

theorem analyze_security_fallback_zero (dir : List String) (jarPath : String)
    (scan : String → Except String (List Nat)) (javac : String → Except String Unit)
    (spotbugs : SpotbugsRun) (he : filesMatching dir JAVA_EXTENSIONS ≠ [])
    (hz : (scanLoop scan (filesMatching dir JAVA_EXTENSIONS) [] 0).2 = 0) :
    analyze_security dir false jarPath scan javac spotbugs =
      ⟨10, ("SpotBugs JAR not found at " ++ jarPath ++ ", using alternative security analysis") ::
        (scanLoop scan (filesMatching dir JAVA_EXTENSIONS) [] 0).1 ++
        ["No security issues found"]⟩ := by
  simp [analyze_security, he, hz]

theorem analyze_security_fallback_pos (dir : List String) (jarPath : String)
    (scan : String → Except String (List Nat)) (javac : String → Except String Unit)
    (spotbugs : SpotbugsRun) (he : filesMatching dir JAVA_EXTENSIONS ≠ [])
    (hz : (scanLoop scan (filesMatching dir JAVA_EXTENSIONS) [] 0).2 ≠ 0) :
    analyze_security dir false jarPath scan javac spotbugs =
      ⟨clampScore (((scanLoop scan (filesMatching dir JAVA_EXTENSIONS) [] 0).2 : ℚ) / 2),
        ("SpotBugs JAR not found at " ++ jarPath ++ ", using alternative security analysis") ::
        (scanLoop scan (filesMatching dir JAVA_EXTENSIONS) [] 0).1⟩ := by
  simp [analyze_security, he, hz]

theorem analyze_security_javacError (dir : List String) (jarPath : String)
    (scan : String → Except String (List Nat)) (javac : String → Except String Unit)
    (spotbugs : SpotbugsRun) (m : String) (he : filesMatching dir JAVA_EXTENSIONS ≠ [])
    (hj : javacLoop javac (filesMatching dir JAVA_EXTENSIONS) = .error m) :
    analyze_security dir true jarPath scan javac spotbugs =
      ⟨0, ["Error in security analysis: " ++ m]⟩ := by
  simp [analyze_security, he, hj]

theorem analyze_security_spotbugs (dir : List String) (jarPath : String)
    (scan : String → Except String (List Nat)) (javac : String → Except String Unit)
    (lines : List String) (he : filesMatching dir JAVA_EXTENSIONS ≠ [])
    (hj : javacLoop javac (filesMatching dir JAVA_EXTENSIONS) = .ok ()) :
    analyze_security dir true jarPath scan javac (.ok lines) =
      (if (spotbugsFilter lines false).length = 0 then
        ⟨10, spotbugsFilter lines false ++ ["No security issues found"]⟩
      else
        ⟨clampScore (((spotbugsFilter lines false).length : ℚ) / 2),
          spotbugsFilter lines false⟩) := by
  simp [analyze_security, he, hj]

theorem java_analyze_security_range (dir : List String) (jarExists : Bool) (jarPath : String)
    (scan : String → Except String (List Nat)) (javac : String → Except String Unit)
    (spotbugs : SpotbugsRun) :
    0 ≤ (analyze_security dir jarExists jarPath scan javac spotbugs).score ∧
      (analyze_security dir jarExists jarPath scan javac spotbugs).score ≤ 10 := by
  by_cases he : filesMatching dir JAVA_EXTENSIONS = []
  · rw [java_analyze_security_empty dir _ _ _ _ _ he]
    exact ⟨by norm_num, by norm_num⟩
  · cases jarExists with
    | false =>
      by_cases hz : (scanLoop scan (filesMatching dir JAVA_EXTENSIONS) [] 0).2 = 0
      · rw [analyze_security_fallback_zero dir _ _ _ _ he hz]
        exact ⟨by norm_num, by norm_num⟩
      · rw [analyze_security_fallback_pos dir _ _ _ _ he hz]
        exact clampScore_mem (div_nonneg (Nat.cast_nonneg _) (by norm_num))
    | true =>
      cases hj : javacLoop javac (filesMatching dir JAVA_EXTENSIONS) with
      | error m =>
        rw [analyze_security_javacError dir _ _ _ _ m he hj]
        exact ⟨le_refl 0, by norm_num⟩
      | ok u =>
        cases spotbugs with
        | exn m => exact ⟨by simp [analyze_security, he, hj], by simp [analyze_security, he, hj]⟩
        | failed m => exact ⟨by simp [analyze_security, he, hj], by simp [analyze_security, he, hj]⟩
        | ok lines =>
          rw [analyze_security_spotbugs dir _ _ _ lines he (by cases u; exact hj)]
          by_cases hz : (spotbugsFilter lines false).length = 0
          · simp only [hz, if_true]
            exact ⟨by norm_num, by norm_num⟩
          · simp only [hz, if_false]
            exact clampScore_mem (div_nonneg (Nat.cast_nonneg _) (by norm_num))

end JavaAnalyzer

/-! ## Claim C1 -/

unseal Rat.sub Rat.mul Rat.inv Rat.add in
/-- Claim C1 counterexample: the claim asserts every metric score lies in
[0, 10] for arbitrary external-tool output, in particular for arbitrary
pylint-reported ratings.  But PythonAnalyzer.analyze_quality floors each
parsed rating at 0 without capping it at 10, so a pylint output whose
rating regex matches 20 (e.g. "Your code has been rated at 20.00/10")
yields quality score 20 > 10. -/
theorem claim_c1_counterexample :
    10 < (PythonAnalyzer.analyze_quality ["a.py"]
      (fun _ => .ok ⟨some 20, []⟩)).score := by
  decide

/-- Claim C1 (amended): for every directory and arbitrary tool output, all
analyzer metric scores lie in [0, 10], except that Python analyze_quality
is only bounded below by 0 unconditionally; its score is at most 10
provided every parsed pylint rating is at most 10. -/
theorem claim_c1_amended :
    (∀ dir flake8, 0 ≤ (PythonAnalyzer.analyze_style dir flake8).score ∧
      (PythonAnalyzer.analyze_style dir flake8).score ≤ 10) ∧
    (∀ dir pylint, 0 ≤ (PythonAnalyzer.analyze_quality dir pylint).score) ∧
    (∀ dir pylint,
      (∀ f out r, pylint f = Except.ok out → out.rating = some r → r ≤ 10) →
      (PythonAnalyzer.analyze_quality dir pylint).score ≤ 10) ∧
    (∀ dir radon, 0 ≤ (PythonAnalyzer.analyze_complexity dir radon).score ∧
      (PythonAnalyzer.analyze_complexity dir radon).score ≤ 10) ∧
    (∀ dir bandit, 0 ≤ (PythonAnalyzer.analyze_security dir bandit).score ∧
      (PythonAnalyzer.analyze_security dir bandit).score ≤ 10) ∧
    (∀ dir eslint, 0 ≤ (JavaScriptAnalyzer.analyze_style dir eslint).score ∧
      (JavaScriptAnalyzer.analyze_style dir eslint).score ≤ 10) ∧
    (∀ dir jshint, 0 ≤ (JavaScriptAnalyzer.analyze_quality dir jshint).score ∧
      (JavaScriptAnalyzer.analyze_quality dir jshint).score ≤ 10) ∧
    (∀ dir eslintC, 0 ≤ (JavaScriptAnalyzer.analyze_complexity dir eslintC).score ∧
      (JavaScriptAnalyzer.analyze_complexity dir eslintC).score ≤ 10) ∧
    (∀ dir pj audit, 0 ≤ (JavaScriptAnalyzer.analyze_security dir pj audit).score ∧
      (JavaScriptAnalyzer.analyze_security dir pj audit).score ≤ 10) ∧
    (∀ dir jar jarPath checkstyle,
      0 ≤ (JavaAnalyzer.analyze_style dir jar jarPath checkstyle).score ∧
      (JavaAnalyzer.analyze_style dir jar jarPath checkstyle).score ≤ 10) ∧
    (∀ dir pmdA pmd, 0 ≤ (JavaAnalyzer.analyze_quality dir pmdA pmd).score ∧
      (JavaAnalyzer.analyze_quality dir pmdA pmd).score ≤ 10) ∧
    (∀ dir stats, 0 ≤ (JavaAnalyzer.analyze_complexity dir stats).score ∧
      (JavaAnalyzer.analyze_complexity dir stats).score ≤ 10) ∧
    (∀ dir jar jarPath scan javac spotbugs,
      0 ≤ (JavaAnalyzer.analyze_security dir jar jarPath scan javac spotbugs).score ∧
      (JavaAnalyzer.analyze_security dir jar jarPath scan javac spotbugs).score ≤ 10) :=
  ⟨PythonAnalyzer.py_analyze_style_range,
   PythonAnalyzer.analyze_quality_nonneg,
   PythonAnalyzer.analyze_quality_le_ten,
   PythonAnalyzer.py_analyze_complexity_range,
   PythonAnalyzer.py_analyze_security_range,
   JavaScriptAnalyzer.js_analyze_style_range,
   JavaScriptAnalyzer.js_analyze_quality_range,
   JavaScriptAnalyzer.js_analyze_complexity_range,
   JavaScriptAnalyzer.js_analyze_security_range,
   JavaAnalyzer.java_analyze_style_range,
   JavaAnalyzer.java_analyze_quality_range,
   JavaAnalyzer.java_analyze_complexity_range,
   JavaAnalyzer.java_analyze_security_range⟩

unseal Rat.sub Rat.mul Rat.inv Rat.add in
/-- Witness for claim C1 (amended), exercising the conditional bound of the
pylint part at a concrete rating of 8 and the style bound at one issue. -/
theorem claim_c1_witness :
    (0 ≤ (PythonAnalyzer.analyze_style ["a.py"] (fun _ => .ok ["e1"])).score ∧
      (PythonAnalyzer.analyze_style ["a.py"] (fun _ => .ok ["e1"])).score ≤ 10) ∧
    (PythonAnalyzer.analyze_quality ["a.py"] (fun _ => .ok ⟨some 8, []⟩)).score ≤ 10 :=
  ⟨claim_c1_amended.1 ["a.py"] (fun _ => .ok ["e1"]),
   claim_c1_amended.2.2.1 ["a.py"] (fun _ => .ok ⟨some 8, []⟩)
     (fun f out r h1 h2 => by
       cases h1
       simp only [PythonAnalyzer.PylintOut.rating] at h2
       cases h2
       norm_num)⟩

/-! ## Success-run characterisations of the per-file loops -/

namespace PythonAnalyzer

/-- When flake8 yields output on every file, the style loop accumulates the
guarded line count and line list of each file in order. -/
theorem py_styleLoop_ok (flake8 : String → Except String (List String))
    (out : String → List String) :
    ∀ (fs : List String) (total : Nat) (issues : List String),
      (∀ f ∈ fs, flake8 f = .ok (out f)) →
      styleLoop flake8 fs total issues =
        .ok (total + (fs.map (fun f => (flakeIssues (out f)).length)).sum,
             issues ++ (fs.map (fun f => flakeIssues (out f))).flatten) := by
  intro fs
  induction fs with
  | nil => intro total issues _; simp [styleLoop]
  | cons f rest ih =>
    intro total issues h
    have hf := h f (by simp)
    simp only [styleLoop, hf]
    rw [ih _ _ (fun g hg => h g (by simp [hg]))]
    simp [Nat.add_assoc]

/-- When radon yields output on every file, the complexity loop accumulates
the matched values and guarded lines of each file in order. -/
theorem py_complexityLoop_ok (radon : String → Except String (List RadonLine))
    (out : String → List RadonLine) :
    ∀ (fs : List String) (csum cnt : Nat) (issues : List String),
      (∀ f ∈ fs, radon f = .ok (out f)) →
      complexityLoop radon fs csum cnt issues =
        .ok (csum + (fs.map (fun f => (radonVals (out f)).sum)).sum,
             cnt + (fs.map (fun f => (radonVals (out f)).length)).sum,
             issues ++ (fs.map (fun f => (radonSel (out f)).map (·.text))).flatten) := by
  intro fs
  induction fs with
  | nil => intro csum cnt issues _; simp [complexityLoop]
  | cons f rest ih =>
    intro csum cnt issues h
    have hf := h f (by simp)
    simp only [complexityLoop, hf]
    rw [ih _ _ _ (fun g hg => h g (by simp [hg]))]
    simp [Nat.add_assoc]

end PythonAnalyzer

namespace JavaScriptAnalyzer

/-- When ESLint output parses on every file, the style loop accumulates the
message count and formatted issue strings of each file in order. -/
theorem js_styleLoop_ok (eslint : String → EslintRun)
    (res : String → List (List EslintMsg)) :
    ∀ (fs : List String) (total : Nat) (issues : List String),
      (∀ f ∈ fs, eslint f = .parsed (res f)) →
      styleLoop eslint fs total issues =
        .ok (total + (fs.map (fun f => (res f).flatten.length)).sum,
             issues ++ (fs.map (fun f => (res f).flatten.map (eslintIssueStr f))).flatten) := by
  intro fs
  induction fs with
  | nil => intro total issues _; simp [styleLoop]
  | cons f rest ih =>
    intro total issues h
    have hf := h f (by simp)
    simp only [styleLoop, hf]
    rw [ih _ _ (fun g hg => h g (by simp [hg]))]
    simp [Nat.add_assoc]

end JavaScriptAnalyzer

namespace JavaAnalyzer

/-- When the JAR is present and no checkstyle run raises, the style loop
accumulates the kept `[ERROR]` lines of each file in order. -/
theorem styleLoop_run (jarPath : String) (checkstyle : String → ToolRun) :
    ∀ (fs : List String) (total : Nat) (issues : List String),
      (∀ f ∈ fs, ∀ m, checkstyle f ≠ .exn m) →
      styleLoop true jarPath checkstyle fs total issues =
        .done (total + (fs.map (fun f => (checkstyleSel (checkstyle f)).length)).sum)
              (issues ++ (fs.map (fun f => checkstyleSel (checkstyle f))).flatten) := by
  intro fs
  induction fs with
  | nil => intro total issues _; simp [styleLoop]
  | cons f rest ih =>
    intro total issues h
    cases hc : checkstyle f with
    | exn m => exact absurd hc (h f (by simp) m)
    | ok lines =>
      simp only [styleLoop, hc, Bool.not_true, if_neg (by decide : ¬((false : Bool) = true))]
      rw [ih _ _ (fun g hg => h g (by simp [hg]))]
      simp [Nat.add_assoc, hc]
    | failed lines =>
      simp only [styleLoop, hc, Bool.not_true, if_neg (by decide : ¬((false : Bool) = true))]
      rw [ih _ _ (fun g hg => h g (by simp [hg]))]
      simp [Nat.add_assoc, hc]

end JavaAnalyzer

namespace JavaScriptAnalyzer

/-- When every complexity message carries a parsed number, the message loop
collects one issue per complexity message and sums the carried values,
without aborting. -/
theorem complexityMsgLoop_ok (f : String) :
    ∀ msgs : List ComplexityMsg,
      (∀ m ∈ msgs, m.ruleId = "complexity" → m.complexityNum ≠ none) →
      complexityMsgLoop f msgs =
        ((msgs.filter (fun m => m.ruleId = "complexity")).map (complexityIssueStr f),
         (complexityVals msgs).sum, (complexityVals msgs).length, false) := by
  intro msgs
  induction msgs with
  | nil => intro _; simp [complexityMsgLoop, complexityVals]
  | cons m rest ih =>
    intro h
    by_cases hr : m.ruleId = "complexity"
    · cases hn : m.complexityNum with
      | none => exact absurd hn (h m (by simp) hr)
      | some c =>
        simp only [complexityMsgLoop, hr, if_true, hn]
        rw [ih (fun x hx => h x (by simp [hx]))]
        simp [complexityVals, hr, hn]
        omega
    · simp only [complexityMsgLoop, hr, if_false]
      rw [ih (fun x hx => h x (by simp [hx]))]
      simp [complexityVals, hr]

/-- When ESLint parses on every file and every complexity message carries a
number, the complexity loop sums all carried values, counts the files with
at least one complexity message, and collects the issue strings. -/
theorem js_complexityLoop_ok (eslintC : String → ComplexityRun)
    (res : String → List (List ComplexityMsg)) :
    ∀ (fs : List String) (total fc : Nat) (issues : List String),
      (∀ f ∈ fs, eslintC f = .parsed (res f)) →
      (∀ f ∈ fs, ∀ m ∈ (res f).flatten, m.ruleId = "complexity" → m.complexityNum ≠ none) →
      complexityLoop eslintC fs total fc issues =
        .ok (total + (fs.map (fun f => (complexityVals (res f).flatten).sum)).sum,
             fc + fs.countP (fun f => decide (0 < (complexityVals (res f).flatten).length)),
             issues ++ (fs.map (fun f =>
               ((res f).flatten.filter (fun m => m.ruleId = "complexity")).map
                 (complexityIssueStr f))).flatten) := by
  intro fs
  induction fs with
  | nil => intro total fc issues _ _; simp [complexityLoop]
  | cons f rest ih =>
    intro total fc issues h hn
    have hf := h f (by simp)
    simp only [complexityLoop, hf]
    rw [complexityMsgLoop_ok f (res f).flatten (hn f (by simp))]
    rw [ih _ _ _ (fun g hg => h g (by simp [hg])) (fun g hg => hn g (by simp [hg]))]
    simp only [Except.ok.injEq, Prod.mk.injEq]
    refine ⟨by simp [Nat.add_assoc], ?_, by simp⟩
    by_cases hc : 0 < (complexityVals (res f).flatten).length
    · simp [hc, List.countP_cons]
      omega
    · simp [hc, List.countP_cons]

end JavaScriptAnalyzer

namespace JavaAnalyzer

/-- When every file's content is readable, the heuristic complexity loop
sums the size-normalised complexities of the files with at least one branch
statement, counts those files, and records one issue per such file. -/
theorem java_complexityLoop_ok (stats : String → Except String JavaStats)
    (st : String → JavaStats) :
    ∀ (fs : List String) (total : ℚ) (fc : Nat) (issues : List String),
      (∀ f ∈ fs, stats f = .ok (st f)) →
      complexityLoop stats fs total fc issues =
        (total + ((fs.filter (fun f => decide (0 < statComplexity (st f)))).map
            (fun f => javaFileComplexity (st f))).sum,
         fc + fs.countP (fun f => decide (0 < statComplexity (st f))),
         issues ++ (fs.map (fun f =>
           if 0 < statComplexity (st f) then
             [f ++ ": Estimated complexity: " ++ toString (statComplexity (st f)) ++
               " statements"]
           else [])).flatten) := by
  intro fs
  induction fs with
  | nil => intro total fc issues _; simp [complexityLoop]
  | cons f rest ih =>
    intro total fc issues h
    have hf := h f (by simp)
    simp only [complexityLoop, hf]
    by_cases hc : statComplexity (st f) > 0
    · simp only [hc, if_true]
      rw [ih _ _ _ (fun g hg => h g (by simp [hg]))]
      simp only [Prod.mk.injEq]
      refine ⟨?_, ?_, ?_⟩
      · simp [List.filter_cons, hc, add_assoc]
      · simp [List.countP_cons, hc]
        omega
      · simp [hc]
    · simp only [hc, if_false]
      rw [ih _ _ _ (fun g hg => h g (by simp [hg]))]
      simp only [Prod.mk.injEq]
      refine ⟨?_, ?_, ?_⟩
      · simp [List.filter_cons, hc]
      · simp [List.countP_cons, hc]
      · simp [hc]

end JavaAnalyzer

/-- A bandit invocation that raises makes analyze_security return score 0
with the handler issue. -/
theorem PythonAnalyzer.analyze_security_error (dir : List String) (m : String)
    (he : filesMatching dir PYTHON_EXTENSIONS ≠ []) :
    PythonAnalyzer.analyze_security dir (.error m) =
      ⟨0, ["Error running bandit: " ++ m]⟩ := by
  simp [PythonAnalyzer.analyze_security, he]

/-- With the Checkstyle JAR absent and at least one Java file, analyze_style
returns the neutral score 5 with the missing-JAR issue. -/
theorem JavaAnalyzer.analyze_style_jarMissing (dir : List String) (jarPath : String)
    (checkstyle : String → JavaAnalyzer.ToolRun)
    (he : filesMatching dir JAVA_EXTENSIONS ≠ []) :
    JavaAnalyzer.analyze_style dir false jarPath checkstyle =
      ⟨5, ["Checkstyle JAR not found at " ++ jarPath ++ ", skipping style analysis"]⟩ := by
  cases hf : filesMatching dir JAVA_EXTENSIONS with
  | nil => exact absurd hf he
  | cons f rest =>
    rw [JavaAnalyzer.analyze_style, hf, if_neg (by simp)]
    simp [JavaAnalyzer.styleLoop]

/-! ## Dispatch and grouping lemmas for the aggregator -/

/-- The extension→language table and the extension→analyzer factory agree:
Python extensions dispatch to the Python analyzer, JavaScript and
TypeScript ones to the JavaScript analyzer, Java to the Java analyzer, and
the five remaining recognised languages to no analyzer at all. -/
theorem extension_dispatch (e : String) :
    (get_language_name e = "Python" → get_language_analyzer e = some .python) ∧
    (get_language_name e = "JavaScript" → get_language_analyzer e = some .javascript) ∧
    (get_language_name e = "TypeScript" → get_language_analyzer e = some .javascript) ∧
    (get_language_name e = "Java" → get_language_analyzer e = some .java) ∧
    (get_language_name e ∈ ["C/C++", "Go", "Ruby", "PHP", "C#"] →
      get_language_analyzer e = none) := by
  by_cases h1 : PYTHON_EXTENSIONS.contains e
  · obtain rfl : e = ".py" := by simpa [PYTHON_EXTENSIONS] using h1
    decide
  · by_cases h2 : JAVASCRIPT_EXTENSIONS.contains e
    · have h : e = ".js" ∨ e = ".jsx" := by simpa [JAVASCRIPT_EXTENSIONS] using h2
      rcases h with rfl | rfl <;> decide
    · by_cases h3 : TYPESCRIPT_EXTENSIONS.contains e
      · have h : e = ".ts" ∨ e = ".tsx" := by simpa [TYPESCRIPT_EXTENSIONS] using h3
        rcases h with rfl | rfl <;> decide
      · by_cases h4 : JAVA_EXTENSIONS.contains e
        · obtain rfl : e = ".java" := by simpa [JAVA_EXTENSIONS] using h4
          decide
        · by_cases h5 : CPP_EXTENSIONS.contains e
          · have h : e = ".cpp" ∨ e = ".cc" ∨ e = ".cxx" ∨ e = ".c" ∨ e = ".h" ∨
                e = ".hpp" := by simpa [CPP_EXTENSIONS] using h5
            rcases h with rfl | rfl | rfl | rfl | rfl | rfl <;> decide
          · by_cases h6 : GO_EXTENSIONS.contains e
            · obtain rfl : e = ".go" := by simpa [GO_EXTENSIONS] using h6
              decide
            · by_cases h7 : RUBY_EXTENSIONS.contains e
              · obtain rfl : e = ".rb" := by simpa [RUBY_EXTENSIONS] using h7
                decide
              · by_cases h8 : PHP_EXTENSIONS.contains e
                · obtain rfl : e = ".php" := by simpa [PHP_EXTENSIONS] using h8
                  decide
                · by_cases h9 : CSHARP_EXTENSIONS.contains e
                  · obtain rfl : e = ".cs" := by simpa [CSHARP_EXTENSIONS] using h9
                    decide
                  · have m1 : e ∉ PYTHON_EXTENSIONS := fun hm => h1 (by simpa using hm)
                    have m2 : e ∉ JAVASCRIPT_EXTENSIONS := fun hm => h2 (by simpa using hm)
                    have m3 : e ∉ TYPESCRIPT_EXTENSIONS := fun hm => h3 (by simpa using hm)
                    have m4 : e ∉ JAVA_EXTENSIONS := fun hm => h4 (by simpa using hm)
                    have m5 : e ∉ CPP_EXTENSIONS := fun hm => h5 (by simpa using hm)
                    have m6 : e ∉ GO_EXTENSIONS := fun hm => h6 (by simpa using hm)
                    have m7 : e ∉ RUBY_EXTENSIONS := fun hm => h7 (by simpa using hm)
                    have m8 : e ∉ PHP_EXTENSIONS := fun hm => h8 (by simpa using hm)
                    have m9 : e ∉ CSHARP_EXTENSIONS := fun hm => h9 (by simpa using hm)
                    have hname : get_language_name e = "Unknown" := by
                      simp [get_language_name, LANGUAGE_BY_EXTENSION,
                        m1, m2, m3, m4, m5, m6, m7, m8, m9]
                    rw [hname]
                    exact ⟨fun h => absurd h (by decide), fun h => absurd h (by decide),
                           fun h => absurd h (by decide), fun h => absurd h (by decide),
                           fun h => absurd h (by decide)⟩

/-- addToGroup keeps every existing key. -/
theorem addToGroup_keeps (lang f : String) :
    ∀ (acc : List (String × List String)) (l : String) (fs : List String),
      (l, fs) ∈ acc → ∃ fs', (l, fs') ∈ addToGroup acc lang f := by
  intro acc
  induction acc with
  | nil => intro l fs h; simp at h
  | cons q rest ih =>
    intro l fs h
    rcases q with ⟨ql, qfs⟩
    rcases List.mem_cons.mp h with h1 | h1
    · rw [Prod.mk.injEq] at h1
      obtain ⟨rfl, rfl⟩ := h1
      by_cases hq : l = lang
      · subst hq
        exact ⟨fs ++ [f], by simp [addToGroup]⟩
      · exact ⟨fs, by simp [addToGroup, hq]⟩
    · by_cases hq : ql = lang
      · subst hq
        exact ⟨fs, by simp [addToGroup, h1]⟩
      · obtain ⟨fs', hfs'⟩ := ih l fs h1
        exact ⟨fs', by simp [addToGroup, hq, hfs']⟩

/-- addToGroup makes its key present. -/
theorem addToGroup_self (lang f : String) :
    ∀ acc, ∃ fs', (lang, fs') ∈ addToGroup acc lang f := by
  intro acc
  induction acc with
  | nil => exact ⟨[f], by simp [addToGroup]⟩
  | cons q rest ih =>
    rcases q with ⟨ql, qfs⟩
    by_cases hq : ql = lang
    · subst hq
      exact ⟨qfs ++ [f], by simp [addToGroup]⟩
    · obtain ⟨fs', h⟩ := ih
      exact ⟨fs', by simp [addToGroup, hq, h]⟩

/-- addToGroup preserves the grouping invariant when the added file is
recognised and grouped under its own language name. -/
theorem addToGroup_ok (f : String)
    (hf : ALL_EXTENSIONS.contains (splitextExt f) = true) :
    ∀ acc, GroupOK acc →
      GroupOK (addToGroup acc (get_language_name (splitextExt f)) f) := by
  intro acc
  induction acc with
  | nil =>
    intro _ p hp
    simp only [addToGroup, List.mem_singleton] at hp
    subst hp
    refine ⟨by simp, ?_⟩
    intro g hg
    simp only [List.mem_singleton] at hg
    subst hg
    exact ⟨hf, rfl⟩
  | cons q rest ih =>
    intro hok p hp
    rcases q with ⟨ql, qfs⟩
    by_cases hq : ql = get_language_name (splitextExt f)
    · rw [addToGroup, if_pos hq] at hp
      rcases List.mem_cons.mp hp with rfl | h1
      · have hhead := hok (ql, qfs) (by simp)
        refine ⟨by simp, ?_⟩
        intro g hg
        rcases List.mem_append.mp hg with hg1 | hg1
        · exact hhead.2 g hg1
        · simp only [List.mem_singleton] at hg1
          subst hg1
          exact ⟨hf, hq.symm⟩
      · exact hok p (List.mem_cons_of_mem _ h1)
    · rw [addToGroup, if_neg hq] at hp
      rcases List.mem_cons.mp hp with rfl | h1
      · exact hok (ql, qfs) (by simp)
      · exact ih (fun r hr => hok r (by simp [hr])) p h1

/-- The grouping walk preserves the invariant. -/
theorem groupFiles_ok :
    ∀ (files : List String) (acc), GroupOK acc → GroupOK (groupFiles files acc) := by
  intro files
  induction files with
  | nil => intro acc h; simpa [groupFiles] using h
  | cons f rest ih =>
    intro acc h
    by_cases hf : ALL_EXTENSIONS.contains (splitextExt f) = true
    · simp only [groupFiles, hf, if_true]
      exact ih _ (addToGroup_ok f hf _ h)
    · simp only [groupFiles, hf, if_false]
      exact ih _ h

/-- The grouping walk keeps every existing key. -/
theorem groupFiles_keeps :
    ∀ (files : List String) (acc) (l : String) (fs : List String),
      (l, fs) ∈ acc → ∃ fs', (l, fs') ∈ groupFiles files acc := by
  intro files
  induction files with
  | nil => intro acc l fs h; exact ⟨fs, by simpa [groupFiles] using h⟩
  | cons f rest ih =>
    intro acc l fs h
    by_cases hf : ALL_EXTENSIONS.contains (splitextExt f) = true
    · simp only [groupFiles, hf, if_true]
      obtain ⟨fs', h'⟩ := addToGroup_keeps _ f acc l fs h
      exact ih _ l fs' h'
    · simp only [groupFiles, hf, if_false]
      exact ih _ l fs h

/-- A recognised file of the walk puts its language among the keys. -/
theorem groupFiles_mem_of_file :
    ∀ (files : List String) (acc) (f : String), f ∈ files →
      ALL_EXTENSIONS.contains (splitextExt f) = true →
      ∃ fs, (get_language_name (splitextExt f), fs) ∈ groupFiles files acc := by
  intro files
  induction files with
  | nil => intro acc f h; simp at h
  | cons g rest ih =>
    intro acc f hmem hf
    rcases List.mem_cons.mp hmem with rfl | h1
    · simp only [groupFiles, hf, if_true]
      obtain ⟨fs0, h0⟩ := addToGroup_self (get_language_name (splitextExt f)) f acc
      exact groupFiles_keeps rest _ _ fs0 h0
    · by_cases hg : ALL_EXTENSIONS.contains (splitextExt g) = true
      · simp only [groupFiles, hg, if_true]
        exact ih _ f h1 hf
      · simp only [groupFiles, hg, if_false]
        exact ih _ f h1 hf

/-- The analysis step keeps the entry's language name. -/
theorem analyzeEntry_fst (dir : List String) (env : ToolEnv) (p : String × List String) :
    (analyzeEntry dir env p).1 = p.1 := by
  rcases p with ⟨lang, fs⟩
  cases fs with
  | nil => rfl
  | cons f0 rest =>
    cases hk : get_language_analyzer (splitextExt f0) <;> simp [analyzeEntry, hk]

/-- The analysis step keeps the entry's file list. -/
theorem analyzeEntry_files (dir : List String) (env : ToolEnv) (p : String × List String) :
    (analyzeEntry dir env p).2.files = p.2 := by
  rcases p with ⟨lang, fs⟩
  cases fs with
  | nil => rfl
  | cons f0 rest =>
    cases hk : get_language_analyzer (splitextExt f0) with
    | none => simp [analyzeEntry, hk, initLangData]
    | some k => simp [analyzeEntry, hk]

/-- A language without an analyzer keeps its freshly initialised metrics. -/
theorem analyzeEntry_none (dir : List String) (env : ToolEnv) (lang f0 : String)
    (rest : List String) (hk : get_language_analyzer (splitextExt f0) = none) :
    analyzeEntry dir env (lang, f0 :: rest) = (lang, initLangData (f0 :: rest)) := by
  simp [analyzeEntry, hk]

/-- A JavaScript-analyzer entry carries the four JavaScript metric results
computed over the whole directory. -/
theorem analyzeEntry_js (dir : List String) (env : ToolEnv) (lang f0 : String)
    (rest : List String)
    (hk : get_language_analyzer (splitextExt f0) = some .javascript) :
    analyzeEntry dir env (lang, f0 :: rest) =
      (lang, ⟨f0 :: rest,
        JavaScriptAnalyzer.analyze_style dir env.eslint,
        JavaScriptAnalyzer.analyze_quality dir env.jshint,
        JavaScriptAnalyzer.analyze_complexity dir env.eslintComplexity,
        JavaScriptAnalyzer.analyze_security dir env.packageJsonExists env.npmAudit⟩) := by
  simp [analyzeEntry, hk, runAnalyzer]

/-! ## Claim C9 -/

/-- Claim C9: every recognised language without an implemented analyzer
(C/C++, Go, Ruby, PHP, C#) that the walk collected appears in the result
with a non-empty file list but all four metrics at score 0 with no issues,
and its entry is identical under every tool environment (no analyzer
operation is invoked for it). -/
theorem claim_c9 (dir : List String) (env : ToolEnv) (lang : String) (data : LangData)
    (hlang : lang ∈ ["C/C++", "Go", "Ruby", "PHP", "C#"])
    (hmem : (lang, data) ∈ analyze_directory dir env) :
    data.files ≠ [] ∧ data.style = ⟨0, []⟩ ∧ data.quality = ⟨0, []⟩ ∧
    data.complexity = ⟨0, []⟩ ∧ data.security = ⟨0, []⟩ ∧
    ∀ env' : ToolEnv, (lang, data) ∈ analyze_directory dir env' := by
  obtain ⟨p, hpmem, hpe⟩ := List.mem_map.mp hmem
  rcases p with ⟨plang, fs⟩
  obtain ⟨hne, hcls⟩ := groupFiles_ok dir [] (by intro p hp; simp at hp) _ hpmem
  cases fs with
  | nil => exact absurd rfl hne
  | cons f0 rest =>
    have hl : plang = lang := by
      have h := analyzeEntry_fst dir env (plang, f0 :: rest)
      rw [hpe] at h
      simpa using h.symm
    subst hl
    have hname : get_language_name (splitextExt f0) = plang := (hcls f0 (by simp)).2
    have hnone : get_language_analyzer (splitextExt f0) = none :=
      (extension_dispatch (splitextExt f0)).2.2.2.2 (by rw [hname]; exact hlang)
    have heq := analyzeEntry_none dir env plang f0 rest hnone
    have hdata : data = initLangData (f0 :: rest) := by
      have h2 := congrArg Prod.snd (heq.symm.trans hpe)
      exact h2.symm
    subst hdata
    refine ⟨by simp [initLangData], rfl, rfl, rfl, rfl, ?_⟩
    intro env'
    exact List.mem_map.mpr ⟨(plang, f0 :: rest), hpmem,
      analyzeEntry_none dir env' plang f0 rest hnone⟩

/-- Witness for claim C9: a directory with one Go file yields the Go entry
with its file and all-zero metrics, under two different environments. -/
theorem claim_c9_witness :
    (⟨["m.go"], ⟨0, []⟩, ⟨0, []⟩, ⟨0, []⟩, ⟨0, []⟩⟩ : LangData).files ≠ [] ∧
    ("Go", (⟨["m.go"], ⟨0, []⟩, ⟨0, []⟩, ⟨0, []⟩, ⟨0, []⟩⟩ : LangData)) ∈
      analyze_directory ["m.go"]
        ⟨fun _ => .error "1", fun _ => .error "2", fun _ => .error "3", .error "4",
         fun _ => .exn "5", fun _ => .exn "6", fun _ => .exn "7", true, .exn "8",
         true, "cp", fun _ => .exn "9", true, .exn "10", fun _ => .error "11",
         true, "sp", fun _ => .error "12", fun _ => .error "13", .exn "14"⟩ :=
  ⟨(claim_c9 ["m.go"]
      ⟨fun _ => .error "a", fun _ => .error "b", fun _ => .error "c", .error "d",
       fun _ => .exn "e", fun _ => .exn "f", fun _ => .exn "g", false, .exn "h",
       false, "cp", fun _ => .exn "i", false, .exn "j", fun _ => .error "k",
       false, "sp", fun _ => .error "l", fun _ => .error "m", .exn "n"⟩
      "Go" ⟨["m.go"], ⟨0, []⟩, ⟨0, []⟩, ⟨0, []⟩, ⟨0, []⟩⟩
      (by decide) (by decide)).1,
   (claim_c9 ["m.go"]
      ⟨fun _ => .error "a", fun _ => .error "b", fun _ => .error "c", .error "d",
       fun _ => .exn "e", fun _ => .exn "f", fun _ => .exn "g", false, .exn "h",
       false, "cp", fun _ => .exn "i", false, .exn "j", fun _ => .error "k",
       false, "sp", fun _ => .error "l", fun _ => .error "m", .exn "n"⟩
      "Go" ⟨["m.go"], ⟨0, []⟩, ⟨0, []⟩, ⟨0, []⟩, ⟨0, []⟩⟩
      (by decide) (by decide)).2.2.2.2.2
     ⟨fun _ => .error "1", fun _ => .error "2", fun _ => .error "3", .error "4",
      fun _ => .exn "5", fun _ => .exn "6", fun _ => .exn "7", true, .exn "8",
      true, "cp", fun _ => .exn "9", true, .exn "10", fun _ => .error "11",
      true, "sp", fun _ => .error "12", fun _ => .error "13", .exn "14"⟩⟩

/-! ## Claim C10 -/

/-- Claim C10: a directory with at least one .js/.jsx file and at least one
.ts/.tsx file produces both a "JavaScript" and a "TypeScript" entry, each
holding the four JavaScriptAnalyzer results computed over the whole
directory — so the two entries' MetricResults are pairwise equal and are
not restricted to either language's own files. -/
theorem claim_c10 (dir : List String) (env : ToolEnv)
    (hjs : ∃ f ∈ dir, splitextExt f ∈ [".js", ".jsx"])
    (hts : ∃ f ∈ dir, splitextExt f ∈ [".ts", ".tsx"]) :
    ∃ dJS dTS : LangData,
      ("JavaScript", dJS) ∈ analyze_directory dir env ∧
      ("TypeScript", dTS) ∈ analyze_directory dir env ∧
      dJS.style = JavaScriptAnalyzer.analyze_style dir env.eslint ∧
      dJS.quality = JavaScriptAnalyzer.analyze_quality dir env.jshint ∧
      dJS.complexity = JavaScriptAnalyzer.analyze_complexity dir env.eslintComplexity ∧
      dJS.security = JavaScriptAnalyzer.analyze_security dir env.packageJsonExists
        env.npmAudit ∧
      dTS.style = dJS.style ∧ dTS.quality = dJS.quality ∧
      dTS.complexity = dJS.complexity ∧ dTS.security = dJS.security := by
  obtain ⟨fj, hfjmem, hfjext⟩ := hjs
  obtain ⟨ft, hftmem, hftext⟩ := hts
  simp only [List.mem_cons, List.not_mem_nil, or_false] at hfjext hftext
  have hjrec : ALL_EXTENSIONS.contains (splitextExt fj) = true := by
    rcases hfjext with h | h <;> rw [h] <;> decide
  have hjname : get_language_name (splitextExt fj) = "JavaScript" := by
    rcases hfjext with h | h <;> rw [h] <;> decide
  have htrec : ALL_EXTENSIONS.contains (splitextExt ft) = true := by
    rcases hftext with h | h <;> rw [h] <;> decide
  have htname : get_language_name (splitextExt ft) = "TypeScript" := by
    rcases hftext with h | h <;> rw [h] <;> decide
  obtain ⟨fsJ, hfsJ⟩ := groupFiles_mem_of_file dir [] fj hfjmem hjrec
  obtain ⟨fsT, hfsT⟩ := groupFiles_mem_of_file dir [] ft hftmem htrec
  rw [hjname] at hfsJ
  rw [htname] at hfsT
  have hok := groupFiles_ok dir [] (by intro p hp; simp at hp)
  obtain ⟨hneJ, hclsJ⟩ := hok _ hfsJ
  obtain ⟨hneT, hclsT⟩ := hok _ hfsT
  cases hfsJc : fsJ with
  | nil => exact absurd (hfsJc ▸ rfl) (hfsJc ▸ hneJ)
  | cons j0 jrest =>
    cases hfsTc : fsT with
    | nil => exact absurd (hfsTc ▸ rfl) (hfsTc ▸ hneT)
    | cons t0 trest =>
      subst hfsJc
      subst hfsTc
      have hkJ : get_language_analyzer (splitextExt j0) = some .javascript :=
        (extension_dispatch (splitextExt j0)).2.1 (hclsJ j0 (by simp)).2
      have hkT : get_language_analyzer (splitextExt t0) = some .javascript :=
        (extension_dispatch (splitextExt t0)).2.2.1 (hclsT t0 (by simp)).2
      refine ⟨⟨j0 :: jrest,
          JavaScriptAnalyzer.analyze_style dir env.eslint,
          JavaScriptAnalyzer.analyze_quality dir env.jshint,
          JavaScriptAnalyzer.analyze_complexity dir env.eslintComplexity,
          JavaScriptAnalyzer.analyze_security dir env.packageJsonExists env.npmAudit⟩,
        ⟨t0 :: trest,
          JavaScriptAnalyzer.analyze_style dir env.eslint,
          JavaScriptAnalyzer.analyze_quality dir env.jshint,
          JavaScriptAnalyzer.analyze_complexity dir env.eslintComplexity,
          JavaScriptAnalyzer.analyze_security dir env.packageJsonExists env.npmAudit⟩,
        ?_, ?_, rfl, rfl, rfl, rfl, rfl, rfl, rfl, rfl⟩
      · exact List.mem_map.mpr ⟨("JavaScript", j0 :: jrest), hfsJ,
          analyzeEntry_js dir env "JavaScript" j0 jrest hkJ⟩
      · exact List.mem_map.mpr ⟨("TypeScript", t0 :: trest), hfsT,
          analyzeEntry_js dir env "TypeScript" t0 trest hkT⟩

/-- Witness for claim C10 on a directory with one .js and one .ts file. -/
theorem claim_c10_witness :
    ∃ dJS dTS : LangData,
      ("JavaScript", dJS) ∈ analyze_directory ["x.js", "y.ts"]
        ⟨fun _ => .error "a", fun _ => .error "b", fun _ => .error "c", .error "d",
         fun _ => .exn "e", fun _ => .exn "f", fun _ => .exn "g", false, .exn "h",
         false, "cp", fun _ => .exn "i", false, .exn "j", fun _ => .error "k",
         false, "sp", fun _ => .error "l", fun _ => .error "m", .exn "n"⟩ ∧
      ("TypeScript", dTS) ∈ analyze_directory ["x.js", "y.ts"]
        ⟨fun _ => .error "a", fun _ => .error "b", fun _ => .error "c", .error "d",
         fun _ => .exn "e", fun _ => .exn "f", fun _ => .exn "g", false, .exn "h",
         false, "cp", fun _ => .exn "i", false, .exn "j", fun _ => .error "k",
         false, "sp", fun _ => .error "l", fun _ => .error "m", .exn "n"⟩ ∧
      dJS.style = JavaScriptAnalyzer.analyze_style ["x.js", "y.ts"] (fun _ => .exn "e") ∧
      dJS.quality = JavaScriptAnalyzer.analyze_quality ["x.js", "y.ts"] (fun _ => .exn "f") ∧
      dJS.complexity = JavaScriptAnalyzer.analyze_complexity ["x.js", "y.ts"]
        (fun _ => .exn "g") ∧
      dJS.security = JavaScriptAnalyzer.analyze_security ["x.js", "y.ts"] false (.exn "h") ∧
      dTS.style = dJS.style ∧ dTS.quality = dJS.quality ∧
      dTS.complexity = dJS.complexity ∧ dTS.security = dJS.security :=
  claim_c10 ["x.js", "y.ts"]
    ⟨fun _ => .error "a", fun _ => .error "b", fun _ => .error "c", .error "d",
     fun _ => .exn "e", fun _ => .exn "f", fun _ => .exn "g", false, .exn "h",
     false, "cp", fun _ => .exn "i", false, .exn "j", fun _ => .error "k",
     false, "sp", fun _ => .error "l", fun _ => .error "m", .exn "n"⟩
    ⟨"x.js", by decide, by decide⟩ ⟨"y.ts", by decide, by decide⟩

/-! ## Tool-substitution independence of the aggregator -/

/-- Substituting the pylint oracle leaves the non-quality components of
every analysis entry unchanged. -/
theorem analyzeEntry_pylint_nonQuality (dir : List String) (env : ToolEnv)
    (g : String → Except String PythonAnalyzer.PylintOut) (p : String × List String) :
    entryNonQuality (analyzeEntry dir { env with pylint := g } p) =
      entryNonQuality (analyzeEntry dir env p) := by
  rcases p with ⟨lang, fs⟩
  cases fs with
  | nil => rfl
  | cons f0 rest =>
    cases hk : get_language_analyzer (splitextExt f0) with
    | none => simp [analyzeEntry, hk]
    | some k => cases k <;> simp [analyzeEntry, hk, runAnalyzer, entryNonQuality]

/-- Which analyzer an entry dispatches to is visible from its file list. -/
theorem entryUsesPython_analyzeEntry (dir : List String) (env : ToolEnv)
    (p : String × List String) :
    entryUsesPython (analyzeEntry dir env p) =
      entryUsesPython (p.1, initLangData p.2) := by
  simp [entryUsesPython, analyzeEntry_files, initLangData]

/-- Substituting the pylint oracle leaves entries not dispatched to the
Python analyzer entirely unchanged. -/
theorem analyzeEntry_pylint_nonPython (dir : List String) (env : ToolEnv)
    (g : String → Except String PythonAnalyzer.PylintOut) (p : String × List String)
    (hp : entryUsesPython (p.1, initLangData p.2) = false) :
    analyzeEntry dir { env with pylint := g } p = analyzeEntry dir env p := by
  rcases p with ⟨lang, fs⟩
  cases fs with
  | nil => rfl
  | cons f0 rest =>
    cases hk : get_language_analyzer (splitextExt f0) with
    | none => simp [analyzeEntry, hk]
    | some k =>
      cases k with
      | python =>
        exfalso
        simp [entryUsesPython, initLangData, hk] at hp
      | javascript => simp [analyzeEntry, hk, runAnalyzer]
      | java => simp [analyzeEntry, hk, runAnalyzer]

/-- Substituting the pylint oracle changes no language name, file list,
style, complexity or security component of the aggregate. -/
theorem analyze_directory_pylint_map (dir : List String) (env : ToolEnv)
    (g : String → Except String PythonAnalyzer.PylintOut) :
    (analyze_directory dir { env with pylint := g }).map entryNonQuality =
      (analyze_directory dir env).map entryNonQuality := by
  unfold analyze_directory
  rw [List.map_map, List.map_map]
  exact List.map_congr_left fun p _ => analyzeEntry_pylint_nonQuality dir env g p

/-- Substituting the pylint oracle leaves the entries of all languages not
analyzed by the Python analyzer identical. -/
theorem analyze_directory_pylint_filter (dir : List String) (env : ToolEnv)
    (g : String → Except String PythonAnalyzer.PylintOut) :
    (analyze_directory dir { env with pylint := g }).filter
        (fun p => !entryUsesPython p) =
      (analyze_directory dir env).filter (fun p => !entryUsesPython p) := by
  unfold analyze_directory
  rw [List.filter_map, List.filter_map]
  have hq : ∀ env₀ : ToolEnv,
      ((fun p => !entryUsesPython p) ∘ analyzeEntry dir env₀) =
        (fun p => !entryUsesPython (p.1, initLangData p.2)) := by
    intro env₀
    funext p
    simp [Function.comp, entryUsesPython_analyzeEntry]
  rw [hq, hq]
  refine List.map_congr_left ?_
  intro p hp
  have hmem := (List.mem_filter.mp hp).2
  apply analyzeEntry_pylint_nonPython
  simpa using hmem

/-! ## Claim C2 -/

/-- Claim C2: for every directory containing zero files of an analyzer's
extension set, each of that analyzer's four metric operations returns score
10.0 with the single issue "No <language> files found" (language name
substituted), for every tool oracle — so the result is independent of any
external subprocess, none being invoked. -/
theorem claim_c2 :
    (∀ dir, filesMatching dir PYTHON_EXTENSIONS = [] →
      ∀ flake8 pylint radon bandit,
        PythonAnalyzer.analyze_style dir flake8 = ⟨10, ["No Python files found"]⟩ ∧
        PythonAnalyzer.analyze_quality dir pylint = ⟨10, ["No Python files found"]⟩ ∧
        PythonAnalyzer.analyze_complexity dir radon = ⟨10, ["No Python files found"]⟩ ∧
        PythonAnalyzer.analyze_security dir bandit = ⟨10, ["No Python files found"]⟩) ∧
    (∀ dir, filesMatching dir JavaScriptAnalyzer.jsExtensions = [] →
      ∀ eslint jshint eslintC pj audit,
        JavaScriptAnalyzer.analyze_style dir eslint =
          ⟨10, ["No JavaScript/TypeScript files found"]⟩ ∧
        JavaScriptAnalyzer.analyze_quality dir jshint =
          ⟨10, ["No JavaScript/TypeScript files found"]⟩ ∧
        JavaScriptAnalyzer.analyze_complexity dir eslintC =
          ⟨10, ["No JavaScript/TypeScript files found"]⟩ ∧
        JavaScriptAnalyzer.analyze_security dir pj audit =
          ⟨10, ["No JavaScript/TypeScript files found"]⟩) ∧
    (∀ dir, filesMatching dir JAVA_EXTENSIONS = [] →
      ∀ jar jarPath checkstyle pmdA pmd stats scan javac spotbugs,
        JavaAnalyzer.analyze_style dir jar jarPath checkstyle =
          ⟨10, ["No Java files found"]⟩ ∧
        JavaAnalyzer.analyze_quality dir pmdA pmd = ⟨10, ["No Java files found"]⟩ ∧
        JavaAnalyzer.analyze_complexity dir stats = ⟨10, ["No Java files found"]⟩ ∧
        JavaAnalyzer.analyze_security dir jar jarPath scan javac spotbugs =
          ⟨10, ["No Java files found"]⟩) := by
  refine ⟨fun dir he flake8 pylint radon bandit => ⟨?_, ?_, ?_, ?_⟩,
          fun dir he eslint jshint eslintC pj audit => ⟨?_, ?_, ?_, ?_⟩,
          fun dir he jar jarPath checkstyle pmdA pmd stats scan javac spotbugs =>
            ⟨?_, ?_, ?_, ?_⟩⟩
  · simp [PythonAnalyzer.analyze_style, he]
  · simp [PythonAnalyzer.analyze_quality, he]
  · simp [PythonAnalyzer.analyze_complexity, he]
  · simp [PythonAnalyzer.analyze_security, he]
  · simp [JavaScriptAnalyzer.analyze_style, he]
  · simp [JavaScriptAnalyzer.analyze_quality, he]
  · simp [JavaScriptAnalyzer.analyze_complexity, he]
  · exact JavaScriptAnalyzer.js_analyze_security_empty dir pj audit he
  · unfold JavaAnalyzer.analyze_style
    rw [if_pos he]
  · exact JavaAnalyzer.analyze_quality_empty dir pmdA pmd he
  · unfold JavaAnalyzer.analyze_complexity
    rw [if_pos he]
  · exact JavaAnalyzer.java_analyze_security_empty dir jar jarPath scan javac spotbugs he

/-- Witness for claim C2 on a directory holding only a file with no
recognised extension, with oracles that would fail if consulted. -/
theorem claim_c2_witness :
    PythonAnalyzer.analyze_style ["readme.txt"] (fun _ => .error "no flake8") =
      ⟨10, ["No Python files found"]⟩ ∧
    JavaScriptAnalyzer.analyze_style ["readme.txt"] (fun _ => .exn "no npx") =
      ⟨10, ["No JavaScript/TypeScript files found"]⟩ ∧
    JavaAnalyzer.analyze_security ["readme.txt"] false "jarpath" (fun _ => .error "x")
      (fun _ => .error "y") (.exn "z") = ⟨10, ["No Java files found"]⟩ :=
  ⟨(claim_c2.1 ["readme.txt"] (by decide) (fun _ => .error "no flake8")
      (fun _ => .error "") (fun _ => .error "") (.error "")).1,
   (claim_c2.2.1 ["readme.txt"] (by decide) (fun _ => .exn "no npx")
      (fun _ => .exn "") (fun _ => .exn "") false (.exn "")).1,
   (claim_c2.2.2 ["readme.txt"] (by decide) false "jarpath" (fun _ => .exn "")
      false (.exn "") (fun _ => .error "") (fun _ => .error "x") (fun _ => .error "y")
      (.exn "z")).2.2.2⟩

/-! ## Claim C3 -/

unseal Rat.sub Rat.mul Rat.inv Rat.add in
/-- Claim C3 counterexample: the claim says any unexpected exception during
a metric's analysis yields score 0 with the exception as a single added
issue.  But JavaAnalyzer.analyze_complexity catches per-file exceptions
inside its file loop: a directory with one unreadable Java file returns
score 10 (not 0) with TWO issues (the per-file error and "No complexity
issues found"). -/
theorem claim_c3_counterexample :
    JavaAnalyzer.analyze_complexity ["A.java"] (fun _ => .error "boom") =
      ⟨10, ["Error analyzing complexity for A.java: boom",
            "No complexity issues found"]⟩ ∧ (10 : ℚ) ≠ 0 := by
  constructor
  · decide
  · norm_num

/-- Claim C3 (amended): unexpected exceptions never propagate out of a
metric operation.  An exception reaching the metric-level handler (shown
here raised at the first tool interaction of each metric; Java
analyze_complexity has no such path since its file loop catches
exceptions per file) yields score 0 with the exception recorded as the
single issue string; and substituting one metric's tool (pylint here)
leaves every other metric of every language, and every entry of languages
not analyzed by the Python analyzer, unchanged. -/
theorem claim_c3_amended :
    (∀ dir flake8 f rest m, filesMatching dir PYTHON_EXTENSIONS = f :: rest →
      flake8 f = Except.error m →
      PythonAnalyzer.analyze_style dir flake8 =
        ⟨0, ["Error running flake8: " ++ m]⟩) ∧
    (∀ dir pylint f rest m, filesMatching dir PYTHON_EXTENSIONS = f :: rest →
      pylint f = Except.error m →
      PythonAnalyzer.analyze_quality dir pylint =
        ⟨0, ["Error running pylint: " ++ m]⟩) ∧
    (∀ dir radon f rest m, filesMatching dir PYTHON_EXTENSIONS = f :: rest →
      radon f = Except.error m →
      PythonAnalyzer.analyze_complexity dir radon =
        ⟨0, ["Error running radon: " ++ m]⟩) ∧
    (∀ dir m, filesMatching dir PYTHON_EXTENSIONS ≠ [] →
      PythonAnalyzer.analyze_security dir (Except.error m) =
        ⟨0, ["Error running bandit: " ++ m]⟩) ∧
    (∀ dir eslint f rest m, filesMatching dir JavaScriptAnalyzer.jsExtensions = f :: rest →
      eslint f = JavaScriptAnalyzer.EslintRun.exn m →
      JavaScriptAnalyzer.analyze_style dir eslint =
        ⟨0, ["Error running ESLint: " ++ m]⟩) ∧
    (∀ dir jshint f rest m, filesMatching dir JavaScriptAnalyzer.jsExtensions = f :: rest →
      jshint f = JavaScriptAnalyzer.JshintRun.exn m →
      JavaScriptAnalyzer.analyze_quality dir jshint =
        ⟨0, ["Error running JSHint: " ++ m]⟩) ∧
    (∀ dir eslintC f rest m,
      filesMatching dir JavaScriptAnalyzer.jsExtensions = f :: rest →
      eslintC f = JavaScriptAnalyzer.ComplexityRun.exn m →
      JavaScriptAnalyzer.analyze_complexity dir eslintC =
        ⟨0, ["Error analyzing complexity: " ++ m]⟩) ∧
    (∀ dir m, filesMatching dir JavaScriptAnalyzer.jsExtensions ≠ [] →
      JavaScriptAnalyzer.analyze_security dir true (.exn m) =
        ⟨0, ["Error in security analysis: " ++ m]⟩) ∧
    (∀ dir jarPath checkstyle f rest m, filesMatching dir JAVA_EXTENSIONS = f :: rest →
      checkstyle f = JavaAnalyzer.ToolRun.exn m →
      JavaAnalyzer.analyze_style dir true jarPath checkstyle =
        ⟨0, ["Error running Checkstyle: " ++ m]⟩) ∧
    (∀ dir m, filesMatching dir JAVA_EXTENSIONS ≠ [] →
      JavaAnalyzer.analyze_quality dir true (.exn m) =
        ⟨0, ["Error running PMD: " ++ m]⟩) ∧
    (∀ dir jarPath scan javac spotbugs f rest m,
      filesMatching dir JAVA_EXTENSIONS = f :: rest →
      javac f = Except.error m →
      JavaAnalyzer.analyze_security dir true jarPath scan javac spotbugs =
        ⟨0, ["Error in security analysis: " ++ m]⟩) ∧
    (∀ dir env g,
      (analyze_directory dir { env with pylint := g }).map entryNonQuality =
        (analyze_directory dir env).map entryNonQuality) ∧
    (∀ dir env g,
      (analyze_directory dir { env with pylint := g }).filter
          (fun p => !entryUsesPython p) =
        (analyze_directory dir env).filter (fun p => !entryUsesPython p)) := by
  refine ⟨?_, ?_, ?_, PythonAnalyzer.analyze_security_error, ?_, ?_, ?_,
          JavaScriptAnalyzer.analyze_security_exn, ?_,
          JavaAnalyzer.analyze_quality_exn, ?_,
          analyze_directory_pylint_map, analyze_directory_pylint_filter⟩
  · intro dir flake8 f rest m hf hm
    rw [PythonAnalyzer.analyze_style, hf, if_neg (by simp)]
    simp [PythonAnalyzer.styleLoop, hm]
  · intro dir pylint f rest m hf hm
    rw [PythonAnalyzer.analyze_quality, hf, if_neg (by simp)]
    simp [PythonAnalyzer.qualityLoop, hm]
  · intro dir radon f rest m hf hm
    rw [PythonAnalyzer.analyze_complexity, hf, if_neg (by simp)]
    simp [PythonAnalyzer.complexityLoop, hm]
  · intro dir eslint f rest m hf hm
    rw [JavaScriptAnalyzer.analyze_style, hf, if_neg (by simp)]
    simp [JavaScriptAnalyzer.styleLoop, hm]
  · intro dir jshint f rest m hf hm
    rw [JavaScriptAnalyzer.analyze_quality, hf, if_neg (by simp)]
    simp [JavaScriptAnalyzer.qualityLoop, hm]
  · intro dir eslintC f rest m hf hm
    rw [JavaScriptAnalyzer.analyze_complexity, hf, if_neg (by simp)]
    simp [JavaScriptAnalyzer.complexityLoop, hm]
  · intro dir jarPath checkstyle f rest m hf hm
    rw [JavaAnalyzer.analyze_style, hf, if_neg (by simp)]
    simp [JavaAnalyzer.styleLoop, hm]
  · intro dir jarPath scan javac spotbugs f rest m hf hm
    exact JavaAnalyzer.analyze_security_javacError dir jarPath scan javac spotbugs m
      (by rw [hf]; simp) (by rw [hf]; simp [JavaAnalyzer.javacLoop, hm])

unseal Rat.sub Rat.mul Rat.inv Rat.add in
/-- Witness for claim C3 (amended) at concrete raising oracles for every
metric-level handler and a concrete pylint substitution. -/
theorem claim_c3_witness :
    PythonAnalyzer.analyze_style ["a.py"] (fun _ => .error "e1") =
      ⟨0, ["Error running flake8: e1"]⟩ ∧
    PythonAnalyzer.analyze_quality ["a.py"] (fun _ => .error "e2") =
      ⟨0, ["Error running pylint: e2"]⟩ ∧
    PythonAnalyzer.analyze_complexity ["a.py"] (fun _ => .error "e3") =
      ⟨0, ["Error running radon: e3"]⟩ ∧
    PythonAnalyzer.analyze_security ["a.py"] (Except.error "e4") =
      ⟨0, ["Error running bandit: e4"]⟩ ∧
    JavaScriptAnalyzer.analyze_style ["a.js"] (fun _ => .exn "e5") =
      ⟨0, ["Error running ESLint: e5"]⟩ ∧
    JavaScriptAnalyzer.analyze_quality ["a.js"] (fun _ => .exn "e6") =
      ⟨0, ["Error running JSHint: e6"]⟩ ∧
    JavaScriptAnalyzer.analyze_complexity ["a.js"] (fun _ => .exn "e7") =
      ⟨0, ["Error analyzing complexity: e7"]⟩ ∧
    JavaScriptAnalyzer.analyze_security ["a.js"] true (.exn "e8") =
      ⟨0, ["Error in security analysis: e8"]⟩ ∧
    JavaAnalyzer.analyze_style ["A.java"] true "cp" (fun _ => .exn "e9") =
      ⟨0, ["Error running Checkstyle: e9"]⟩ ∧
    JavaAnalyzer.analyze_quality ["A.java"] true (.exn "e10") =
      ⟨0, ["Error running PMD: e10"]⟩ ∧
    JavaAnalyzer.analyze_security ["A.java"] true "sp" (fun _ => .ok [])
      (fun _ => .error "e11") (.exn "x") =
      ⟨0, ["Error in security analysis: e11"]⟩ ∧
    (analyze_directory ["a.py"]
      { flake8 := fun _ => .ok [], pylint := fun _ => .error "raised",
        radon := fun _ => .ok [], bandit := .ok [],
        eslint := fun _ => .parsed [], jshint := fun _ => .parsed [],
        eslintComplexity := fun _ => .parsed [], packageJsonExists := true,
        npmAudit := .parsed [], checkstyleJarExists := true, checkstyleJarPath := "cp",
        checkstyle := fun _ => .ok [], pmdAvailable := true, pmd := .ok [],
        javaStats := fun _ => .error "s", spotbugsJarExists := true,
        spotbugsJarPath := "sp", javaScan := fun _ => .ok [],
        javac := fun _ => .ok (), spotbugs := .ok [] }).map entryNonQuality =
    (analyze_directory ["a.py"]
      { flake8 := fun _ => .ok [], pylint := fun _ => .ok ⟨some 9, []⟩,
        radon := fun _ => .ok [], bandit := .ok [],
        eslint := fun _ => .parsed [], jshint := fun _ => .parsed [],
        eslintComplexity := fun _ => .parsed [], packageJsonExists := true,
        npmAudit := .parsed [], checkstyleJarExists := true, checkstyleJarPath := "cp",
        checkstyle := fun _ => .ok [], pmdAvailable := true, pmd := .ok [],
        javaStats := fun _ => .error "s", spotbugsJarExists := true,
        spotbugsJarPath := "sp", javaScan := fun _ => .ok [],
        javac := fun _ => .ok (), spotbugs := .ok [] }).map entryNonQuality := by
  refine ⟨claim_c3_amended.1 ["a.py"] _ "a.py" [] "e1" (by decide) rfl,
          claim_c3_amended.2.1 ["a.py"] _ "a.py" [] "e2" (by decide) rfl,
          claim_c3_amended.2.2.1 ["a.py"] _ "a.py" [] "e3" (by decide) rfl,
          claim_c3_amended.2.2.2.1 ["a.py"] "e4" (by decide),
          claim_c3_amended.2.2.2.2.1 ["a.js"] _ "a.js" [] "e5" (by decide) rfl,
          claim_c3_amended.2.2.2.2.2.1 ["a.js"] _ "a.js" [] "e6" (by decide) rfl,
          claim_c3_amended.2.2.2.2.2.2.1 ["a.js"] _ "a.js" [] "e7" (by decide) rfl,
          claim_c3_amended.2.2.2.2.2.2.2.1 ["a.js"] "e8" (by decide),
          claim_c3_amended.2.2.2.2.2.2.2.2.1 ["A.java"] "cp" _ "A.java" [] "e9"
            (by decide) rfl,
          claim_c3_amended.2.2.2.2.2.2.2.2.2.1 ["A.java"] "e10" (by decide),
          claim_c3_amended.2.2.2.2.2.2.2.2.2.2.1 ["A.java"] "sp" _ _ (.exn "x")
            "A.java" [] "e11" (by decide) rfl,
          ?_⟩
  exact claim_c3_amended.2.2.2.2.2.2.2.2.2.2.2.1 ["a.py"]
    { flake8 := fun _ => .ok [], pylint := fun _ => .ok ⟨some 9, []⟩,
      radon := fun _ => .ok [], bandit := .ok [],
      eslint := fun _ => .parsed [], jshint := fun _ => .parsed [],
      eslintComplexity := fun _ => .parsed [], packageJsonExists := true,
      npmAudit := .parsed [], checkstyleJarExists := true, checkstyleJarPath := "cp",
      checkstyle := fun _ => .ok [], pmdAvailable := true, pmd := .ok [],
      javaStats := fun _ => .error "s", spotbugsJarExists := true,
      spotbugsJarPath := "sp", javaScan := fun _ => .ok [],
      javac := fun _ => .ok (), spotbugs := .ok [] }
    (fun _ => .error "raised")

/-! ## Claim C5 -/

/-- Claim C5: for every non-empty set of matching files, each style metric
scores max(0, 10 − min(10, total reported issues / number of matching
files)): flake8 counts the guarded output lines per file, ESLint the parsed
messages per file, Checkstyle the kept `[ERROR]` lines per file. -/
theorem claim_c5 :
    (∀ dir flake8 (out : String → List String),
      filesMatching dir PYTHON_EXTENSIONS ≠ [] →
      (∀ f ∈ filesMatching dir PYTHON_EXTENSIONS, flake8 f = Except.ok (out f)) →
      (PythonAnalyzer.analyze_style dir flake8).score =
        max 0 (10 - min 10
          ((((filesMatching dir PYTHON_EXTENSIONS).map
              (fun f => (PythonAnalyzer.flakeIssues (out f)).length)).sum : ℚ) /
            ((filesMatching dir PYTHON_EXTENSIONS).length : ℚ)))) ∧
    (∀ dir eslint (res : String → List (List JavaScriptAnalyzer.EslintMsg)),
      filesMatching dir JavaScriptAnalyzer.jsExtensions ≠ [] →
      (∀ f ∈ filesMatching dir JavaScriptAnalyzer.jsExtensions,
        eslint f = JavaScriptAnalyzer.EslintRun.parsed (res f)) →
      (JavaScriptAnalyzer.analyze_style dir eslint).score =
        max 0 (10 - min 10
          ((((filesMatching dir JavaScriptAnalyzer.jsExtensions).map
              (fun f => (res f).flatten.length)).sum : ℚ) /
            ((filesMatching dir JavaScriptAnalyzer.jsExtensions).length : ℚ)))) ∧
    (∀ dir jarPath checkstyle,
      filesMatching dir JAVA_EXTENSIONS ≠ [] →
      (∀ f ∈ filesMatching dir JAVA_EXTENSIONS, ∀ m,
        checkstyle f ≠ JavaAnalyzer.ToolRun.exn m) →
      (JavaAnalyzer.analyze_style dir true jarPath checkstyle).score =
        max 0 (10 - min 10
          ((((filesMatching dir JAVA_EXTENSIONS).map
              (fun f => (JavaAnalyzer.checkstyleSel (checkstyle f)).length)).sum : ℚ) /
            ((filesMatching dir JAVA_EXTENSIONS).length : ℚ)))) := by
  refine ⟨fun dir flake8 out he hok => ?_, fun dir eslint res he hok => ?_,
          fun dir jarPath checkstyle he hok => ?_⟩
  · rw [PythonAnalyzer.analyze_style, if_neg he,
      PythonAnalyzer.py_styleLoop_ok flake8 out _ 0 [] hok]
    simp [clampScore]
  · rw [JavaScriptAnalyzer.analyze_style, if_neg he,
      JavaScriptAnalyzer.js_styleLoop_ok eslint res _ 0 [] hok]
    simp [clampScore]
  · rw [JavaAnalyzer.analyze_style, if_neg he,
      JavaAnalyzer.styleLoop_run jarPath checkstyle _ 0 [] hok]
    simp [clampScore]

unseal Rat.sub Rat.mul Rat.inv Rat.add in
/-- Witness for claim C5: one Python file with two flake8 issue lines gives
style score 8, one JavaScript file with one message gives 9, one Java file
whose checkstyle run failed with one `[ERROR]` line gives 9. -/
theorem claim_c5_witness :
    (PythonAnalyzer.analyze_style ["a.py"] (fun _ => .ok ["a:1 E1", "a:2 E2"])).score =
      max 0 (10 - min 10 ((2 : ℚ) / 1)) ∧
    (JavaScriptAnalyzer.analyze_style ["a.js"]
      (fun _ => .parsed [[⟨"1", "2", "bad", "rule"⟩]])).score =
      max 0 (10 - min 10 ((1 : ℚ) / 1)) ∧
    (JavaAnalyzer.analyze_style ["A.java"] true "jp"
      (fun _ => .failed ["[ERROR] x", "note"])).score =
      max 0 (10 - min 10 ((1 : ℚ) / 1)) := by
  refine ⟨?_, ?_, ?_⟩
  · have := claim_c5.1 ["a.py"] (fun _ => .ok ["a:1 E1", "a:2 E2"])
      (fun _ => ["a:1 E1", "a:2 E2"]) (by decide) (fun f _ => rfl)
    rw [this]
    decide
  · have := claim_c5.2.1 ["a.js"] (fun _ => .parsed [[⟨"1", "2", "bad", "rule"⟩]])
      (fun _ => [[⟨"1", "2", "bad", "rule"⟩]]) (by decide) (fun f _ => rfl)
    rw [this]
    decide
  · have := claim_c5.2.2 ["A.java"] "jp" (fun _ => .failed ["[ERROR] x", "note"])
      (by decide) (fun f _ m => by simp)
    rw [this]
    decide

/-! ## Claim C6 -/

unseal Rat.sub Rat.mul Rat.inv Rat.add in
/-- Claim C6 counterexample: the claim says average_complexity is the MEAN
of the tool-reported complexity values.  For the JavaScript analyzer the
code instead divides the SUM of all reported complexities by the number of
files having at least one complexity message: one file reporting values 12
and 14 yields 26/1 = 26 (score 0), not mean 13 (claimed score 3.5). -/
theorem claim_c6_counterexample :
    (JavaScriptAnalyzer.analyze_complexity ["a.js"]
      (fun _ => .parsed [[⟨"1", "1", "f has a complexity of 12", "complexity", some 12⟩,
                          ⟨"2", "1", "g has a complexity of 14", "complexity", some 14⟩]])).score ≠
      claimComplexityScore [12, 14] 2 := by
  decide

/-- Claim C6 (amended): with every tool call succeeding and at least one
complexity value reported, the Python score is max(0, 10 − min(10, mean of
the matched radon values / 1)); the JavaScript score divides the SUM of the
reported values by the number of FILES with at least one complexity
message, then by 2; the Java score divides the mean over contributing files
of the size-normalised branch count (count / (lines/100)) by 2. -/
theorem claim_c6_amended :
    (∀ dir radon (out : String → List PythonAnalyzer.RadonLine),
      filesMatching dir PYTHON_EXTENSIONS ≠ [] →
      (∀ f ∈ filesMatching dir PYTHON_EXTENSIONS, radon f = Except.ok (out f)) →
      ((filesMatching dir PYTHON_EXTENSIONS).map
        (fun f => (PythonAnalyzer.radonVals (out f)).length)).sum ≠ 0 →
      (PythonAnalyzer.analyze_complexity dir radon).score =
        max 0 (10 - min 10
          (((((filesMatching dir PYTHON_EXTENSIONS).map
              (fun f => (PythonAnalyzer.radonVals (out f)).sum)).sum : ℚ) /
            (((filesMatching dir PYTHON_EXTENSIONS).map
              (fun f => (PythonAnalyzer.radonVals (out f)).length)).sum : ℚ)) / 1))) ∧
    (∀ dir eslintC (res : String → List (List JavaScriptAnalyzer.ComplexityMsg)),
      filesMatching dir JavaScriptAnalyzer.jsExtensions ≠ [] →
      (∀ f ∈ filesMatching dir JavaScriptAnalyzer.jsExtensions,
        eslintC f = JavaScriptAnalyzer.ComplexityRun.parsed (res f)) →
      (∀ f ∈ filesMatching dir JavaScriptAnalyzer.jsExtensions,
        ∀ m ∈ (res f).flatten, m.ruleId = "complexity" → m.complexityNum ≠ none) →
      (filesMatching dir JavaScriptAnalyzer.jsExtensions).countP
        (fun f => decide (0 < (JavaScriptAnalyzer.complexityVals (res f).flatten).length)) ≠ 0 →
      (JavaScriptAnalyzer.analyze_complexity dir eslintC).score =
        max 0 (10 - min 10
          (((((filesMatching dir JavaScriptAnalyzer.jsExtensions).map
              (fun f => (JavaScriptAnalyzer.complexityVals (res f).flatten).sum)).sum : ℚ) /
            (((filesMatching dir JavaScriptAnalyzer.jsExtensions).countP
              (fun f => decide (0 < (JavaScriptAnalyzer.complexityVals (res f).flatten).length)) : ℚ))) / 2))) ∧
    (∀ dir stats (st : String → JavaAnalyzer.JavaStats),
      filesMatching dir JAVA_EXTENSIONS ≠ [] →
      (∀ f ∈ filesMatching dir JAVA_EXTENSIONS, stats f = Except.ok (st f)) →
      (filesMatching dir JAVA_EXTENSIONS).countP
        (fun f => decide (0 < JavaAnalyzer.statComplexity (st f))) ≠ 0 →
      (JavaAnalyzer.analyze_complexity dir stats).score =
        max 0 (10 - min 10
          (((((filesMatching dir JAVA_EXTENSIONS).filter
              (fun f => decide (0 < JavaAnalyzer.statComplexity (st f)))).map
              (fun f => JavaAnalyzer.javaFileComplexity (st f))).sum /
            (((filesMatching dir JAVA_EXTENSIONS).countP
              (fun f => decide (0 < JavaAnalyzer.statComplexity (st f)))) : ℚ)) / 2))) := by
  refine ⟨fun dir radon out he hok hcnt => ?_, fun dir eslintC res he hok hnum hcnt => ?_,
          fun dir stats st he hok hcnt => ?_⟩
  · rw [PythonAnalyzer.analyze_complexity, if_neg he,
      PythonAnalyzer.py_complexityLoop_ok radon out _ 0 0 [] hok]
    simp [clampScore, hcnt]
  · rw [JavaScriptAnalyzer.analyze_complexity, if_neg he,
      JavaScriptAnalyzer.js_complexityLoop_ok eslintC res _ 0 0 [] hok hnum]
    simp [clampScore, Nat.pos_iff_ne_zero.mpr hcnt]
  · rw [JavaAnalyzer.analyze_complexity, if_neg he,
      JavaAnalyzer.java_complexityLoop_ok stats st _ 0 0 [] hok]
    simp [clampScore, hcnt]

unseal Rat.sub Rat.mul Rat.inv Rat.add in
/-- Witness for claim C6 (amended): Python with values 3 and 5 in one file
scores 6; JavaScript with a single file reporting value 4 scores 8; Java
with one file of 2 branch statements over 100 lines scores 9. -/
theorem claim_c6_witness :
    (PythonAnalyzer.analyze_complexity ["a.py"]
      (fun _ => .ok [⟨"f A (3)", some 3⟩, ⟨"g B (5)", some 5⟩])).score =
      max 0 (10 - min 10 (((8 : ℚ) / 2) / 1)) ∧
    (JavaScriptAnalyzer.analyze_complexity ["a.js"]
      (fun _ => .parsed [[⟨"1", "1", "f has a complexity of 4", "complexity", some 4⟩]])).score =
      max 0 (10 - min 10 (((4 : ℚ) / 1) / 2)) ∧
    (JavaAnalyzer.analyze_complexity ["A.java"]
      (fun _ => .ok ⟨2, 0, 0, 0, 0, 100⟩)).score =
      max 0 (10 - min 10 (((2 : ℚ) / 1) / 2)) := by
  refine ⟨?_, ?_, ?_⟩
  · have := claim_c6_amended.1 ["a.py"]
      (fun _ => .ok [⟨"f A (3)", some 3⟩, ⟨"g B (5)", some 5⟩])
      (fun _ => [⟨"f A (3)", some 3⟩, ⟨"g B (5)", some 5⟩]) (by decide)
      (fun f _ => rfl) (by decide)
    rw [this]
    decide
  · have := claim_c6_amended.2.1 ["a.js"]
      (fun _ => .parsed [[⟨"1", "1", "f has a complexity of 4", "complexity", some 4⟩]])
      (fun _ => [[⟨"1", "1", "f has a complexity of 4", "complexity", some 4⟩]])
      (by decide) (fun f _ => rfl) (by decide) (by decide)
    rw [this]
    decide
  · have := claim_c6_amended.2.2 ["A.java"]
      (fun _ => .ok ⟨2, 0, 0, 0, 0, 100⟩) (fun _ => ⟨2, 0, 0, 0, 0, 100⟩)
      (by decide) (fun f _ => rfl) (by decide)
    rw [this]
    decide

/-! ## Claim C7 -/

unseal Rat.sub Rat.mul Rat.inv Rat.add in
/-- Claim C7 counterexample: the claim formula has no division by 2, but
the code computes max(0, 10 − min(10, weighted_issues / 2)): a single low
vulnerability of count 1 scores 9.5 in the code and 9 under the claim. -/
theorem claim_c7_counterexample :
    (JavaScriptAnalyzer.analyze_security ["a.js"] true
      (.parsed [("pkg", ⟨some "low", 1⟩)])).score ≠
      claimAuditScore [("pkg", ⟨some "low", 1⟩)] := by
  decide

/-- Claim C7 (amended): for every npm audit result with at least one
counted vulnerability, the JavaScript security score is
max(0, 10 − min(10, weighted_issue_count / 2)), the weighted count summing
count × severity weight with critical=4, high=3, moderate=2, low=1 and any
other severity weighted 1. -/
theorem claim_c7_amended :
    (∀ dir vulns, filesMatching dir JavaScriptAnalyzer.jsExtensions ≠ [] →
      (vulns.map (fun p => p.2.count)).sum ≠ 0 →
      (JavaScriptAnalyzer.analyze_security dir true (.parsed vulns)).score =
        max 0 (10 - min 10 ((JavaScriptAnalyzer.weightedIssues vulns : ℚ) / 2))) ∧
    JavaScriptAnalyzer.severityWeight "critical" = 4 ∧
    JavaScriptAnalyzer.severityWeight "high" = 3 ∧
    JavaScriptAnalyzer.severityWeight "moderate" = 2 ∧
    JavaScriptAnalyzer.severityWeight "low" = 1 ∧
    (∀ s, s ∉ ["critical", "high", "moderate", "low"] →
      JavaScriptAnalyzer.severityWeight s = 1) := by
  refine ⟨fun dir vulns he ht => ?_, rfl, rfl, rfl, rfl, fun s hs => ?_⟩
  · rw [JavaScriptAnalyzer.analyze_security_parsed_pos dir vulns he ht]
    rfl
  · simp only [List.mem_cons, List.not_mem_nil, or_false] at hs
    push_neg at hs
    obtain ⟨h1, h2, h3, h4⟩ := hs
    simp [JavaScriptAnalyzer.severityWeight, h1, h2, h3, h4]

unseal Rat.sub Rat.mul Rat.inv Rat.add in
/-- Witness for claim C7 (amended): two critical vulnerabilities plus one
of unstated severity (defaulting to low) weigh 9, scoring 5.5. -/
theorem claim_c7_witness :
    (JavaScriptAnalyzer.analyze_security ["a.js"] true
      (.parsed [("lodash", ⟨some "critical", 2⟩), ("x", ⟨none, 1⟩)])).score =
      max 0 (10 - min 10 ((9 : ℚ) / 2)) := by
  rw [claim_c7_amended.1 ["a.js"]
    [("lodash", ⟨some "critical", 2⟩), ("x", ⟨none, 1⟩)] (by decide) (by decide)]
  decide

/-! ## Claim C4 -/

unseal Rat.sub Rat.mul Rat.inv Rat.add in
/-- Claim C4 counterexample: the claim says every metric whose tool is not
installed returns the neutral 5.0.  But a missing bandit binary raises
FileNotFoundError inside analyze_security, which is handled by the generic
method-level handler: score 0, not 5.0. -/
theorem claim_c4_counterexample :
    (PythonAnalyzer.analyze_security ["a.py"]
      (.error "No such file or directory: bandit")).score ≠ 5 := by
  decide

/-- Claim C4 (amended): exactly three absence checks degrade to the neutral
score 5.0 with an explanatory issue — the Checkstyle JAR for Java style,
the `pmd --version` probe for Java quality, and package.json for JavaScript
security.  Any other missing tool surfaces as an exception handled by the
metric-level handler with score 0 (shown for bandit), and a missing
SpotBugs JAR instead falls back to the regex scan, whose first issue is the
fallback notice. -/
theorem claim_c4_amended :
    (∀ dir jarPath checkstyle, filesMatching dir JAVA_EXTENSIONS ≠ [] →
      JavaAnalyzer.analyze_style dir false jarPath checkstyle =
        ⟨5, ["Checkstyle JAR not found at " ++ jarPath ++ ", skipping style analysis"]⟩) ∧
    (∀ dir pmd, filesMatching dir JAVA_EXTENSIONS ≠ [] →
      JavaAnalyzer.analyze_quality dir false pmd =
        ⟨5, ["PMD not found, skipping quality analysis"]⟩) ∧
    (∀ dir audit, filesMatching dir JavaScriptAnalyzer.jsExtensions ≠ [] →
      JavaScriptAnalyzer.analyze_security dir false audit =
        ⟨5, ["No package.json found, skipping security audit"]⟩) ∧
    (∀ dir m, filesMatching dir PYTHON_EXTENSIONS ≠ [] →
      PythonAnalyzer.analyze_security dir (Except.error m) =
        ⟨0, ["Error running bandit: " ++ m]⟩) ∧
    (∀ dir jarPath scan javac spotbugs, filesMatching dir JAVA_EXTENSIONS ≠ [] →
      (JavaAnalyzer.analyze_security dir false jarPath scan javac spotbugs).issues.head? =
        some ("SpotBugs JAR not found at " ++ jarPath ++
          ", using alternative security analysis")) := by
  refine ⟨JavaAnalyzer.analyze_style_jarMissing,
          JavaAnalyzer.analyze_quality_noPmd,
          JavaScriptAnalyzer.analyze_security_noPackageJson,
          PythonAnalyzer.analyze_security_error,
          fun dir jarPath scan javac spotbugs he => ?_⟩
  by_cases hz : (JavaAnalyzer.scanLoop scan (filesMatching dir JAVA_EXTENSIONS) [] 0).2 = 0
  · rw [JavaAnalyzer.analyze_security_fallback_zero dir jarPath scan javac spotbugs he hz]
    rfl
  · rw [JavaAnalyzer.analyze_security_fallback_pos dir jarPath scan javac spotbugs he hz]
    rfl

/-- Witness for claim C4 (amended): concrete 5.0 results for the three
absence checks, score 0 for a missing bandit, and the fallback notice when
the SpotBugs JAR is absent. -/
theorem claim_c4_witness :
    JavaAnalyzer.analyze_style ["A.java"] false "HOME/checkstyle.jar" (fun _ => .exn "x") =
      ⟨5, ["Checkstyle JAR not found at HOME/checkstyle.jar, skipping style analysis"]⟩ ∧
    JavaAnalyzer.analyze_quality ["A.java"] false (.exn "x") =
      ⟨5, ["PMD not found, skipping quality analysis"]⟩ ∧
    JavaScriptAnalyzer.analyze_security ["a.js"] false (.exn "x") =
      ⟨5, ["No package.json found, skipping security audit"]⟩ ∧
    PythonAnalyzer.analyze_security ["a.py"] (Except.error "no bandit") =
      ⟨0, ["Error running bandit: no bandit"]⟩ ∧
    (JavaAnalyzer.analyze_security ["A.java"] false "HOME/spotbugs.jar"
      (fun _ => .ok (List.replicate 20 0)) (fun _ => .ok ()) (.exn "x")).issues.head? =
      some "SpotBugs JAR not found at HOME/spotbugs.jar, using alternative security analysis" := by
  refine ⟨?_, ?_, ?_, ?_, ?_⟩
  · rw [claim_c4_amended.1 ["A.java"] "HOME/checkstyle.jar" (fun _ => .exn "x") (by decide)]
    decide
  · rw [claim_c4_amended.2.1 ["A.java"] (.exn "x") (by decide)]
  · rw [claim_c4_amended.2.2.1 ["a.js"] (.exn "x") (by decide)]
  · rw [claim_c4_amended.2.2.2.1 ["a.py"] "no bandit" (by decide)]
    decide
  · rw [claim_c4_amended.2.2.2.2 ["A.java"] "HOME/spotbugs.jar"
      (fun _ => .ok (List.replicate 20 0)) (fun _ => .ok ()) (.exn "x") (by decide)]
    decide

/-! ## Claim C8 -/

/-- The summary loop appends one row per language and adds the per-column
score sums to the accumulator. -/
theorem summaryLoop_eq (m : List (String × LangData)) :
    ∀ acc : ScoreAcc, summaryLoop m acc =
      ⟨acc.rows ++ m.map langRow,
       acc.style + (m.map (fun p => p.2.style.score)).sum,
       acc.quality + (m.map (fun p => p.2.quality.score)).sum,
       acc.complexity + (m.map (fun p => p.2.complexity.score)).sum,
       acc.security + (m.map (fun p => p.2.security.score)).sum,
       acc.overall + (m.map (fun p => (langRow p).overall)).sum⟩ := by
  induction m with
  | nil => intro acc; simp [summaryLoop]
  | cons p rest ih =>
    intro acc
    rw [summaryLoop, ih]
    simp [langRow, add_assoc]

/-- Claim C8: the summary table appends a final "Overall" row exactly when
more than one language is present; each of its score cells is the
arithmetic mean (column sum over number of languages) of that column's
per-language values, the Overall column averaging the per-language overall
means; with exactly one language the table is just the language rows. -/
theorem claim_c8 :
    (∀ m : List (String × LangData), 1 < m.length →
      summaryTable m = m.map langRow ++
        [⟨"Overall", (m.map (fun p => p.2.files.length)).sum,
          (m.map (fun p => p.2.style.score)).sum / (m.length : ℚ),
          (m.map (fun p => p.2.quality.score)).sum / (m.length : ℚ),
          (m.map (fun p => p.2.complexity.score)).sum / (m.length : ℚ),
          (m.map (fun p => p.2.security.score)).sum / (m.length : ℚ),
          (m.map (fun p => (langRow p).overall)).sum / (m.length : ℚ)⟩]) ∧
    (∀ m : List (String × LangData), m.length = 1 →
      summaryTable m = m.map langRow) := by
  constructor <;> intro m hm
  · rw [summaryTable, summaryLoop_eq]
    simp [hm]
  · rw [summaryTable, summaryLoop_eq]
    simp [hm]

unseal Rat.sub Rat.mul Rat.inv Rat.add in
/-- Witness for claim C8 on two concrete languages (means 9, 8, 10, 7 and
overall 8.5) and on a single language (no Overall row). -/
theorem claim_c8_witness :
    summaryTable [("Python", ⟨["a.py"], ⟨8, []⟩, ⟨6, []⟩, ⟨10, []⟩, ⟨4, []⟩⟩),
                  ("JavaScript", ⟨["b.js"], ⟨10, []⟩, ⟨10, []⟩, ⟨10, []⟩, ⟨10, []⟩⟩)] =
      [⟨"Python", 1, 8, 6, 10, 4, 7⟩, ⟨"JavaScript", 1, 10, 10, 10, 10, 10⟩,
       ⟨"Overall", 2, 9, 8, 10, 7, 17 / 2⟩] ∧
    summaryTable [("Python", ⟨["a.py"], ⟨8, []⟩, ⟨6, []⟩, ⟨10, []⟩, ⟨4, []⟩⟩)] =
      [⟨"Python", 1, 8, 6, 10, 4, 7⟩] := by
  constructor
  · rw [claim_c8.1 _ (by decide)]
    decide
  · rw [claim_c8.2 _ (by decide)]
    decide

end DevinBakeoff
